import Mathlib

/-!
Verification of the position/schedule resolver of the santaclaustracker
repository (src/components/Scene3D.tsx, tracking-service document):
`TRACKING_STATIONS`, `getSantaLocation`, `calculateGifts`,
`REGION_LOGS` / `generateIntelMessage`.

Timestamps are JavaScript `Date` time values: integer milliseconds since
the Unix epoch (`Int`).  Calendar fields (`getUTCMonth`, `getUTCDate`,
`getUTCHours`, `getUTCMinutes`) are modelled with the proleptic Gregorian
calendar exactly as ECMAScript specifies them.  In Lean, `/` and `%` on
`Int` are Euclidean (`Int.ediv` / `Int.emod`); for positive divisors this
is floor division, matching ECMAScript `Date` field extraction.
-/

namespace SantaTracker

/-- Day number (days since 1970-01-01) of a time value, `floor (ms / 86400000)`. -/
def daysFromMs (ms : Int) : Int := ms / 86400000

/-- Millisecond of the UTC day, in `[0, 86400000)`. -/
def msOfDay (ms : Int) : Int := ms % 86400000

/-- ECMAScript `Date.prototype.getUTCHours`. -/
def getUTCHours (ms : Int) : Int := msOfDay ms / 3600000

/-- ECMAScript `Date.prototype.getUTCMinutes`. -/
def getUTCMinutes (ms : Int) : Int := msOfDay ms / 60000 % 60

/-- Gregorian civil date `(year, month 1..12, day 1..31)` from a day number
(days since 1970-01-01).  Standard era/day-of-era decomposition of the
proleptic Gregorian calendar used by ECMAScript `Date`. -/
def civilFromDays (day : Int) : Int × Int × Int :=
  let z := day + 719468
  let era := z / 146097
  let doe := z % 146097
  let yoe := (doe - doe / 1460 + doe / 36524 - doe / 146096) / 365
  let y := yoe + era * 400
  let doy := doe - (365 * yoe + yoe / 4 - yoe / 100)
  let mp := (5 * doy + 2) / 153
  let d := doy - (153 * mp + 2) / 5 + 1
  let m := if mp < 10 then mp + 3 else mp - 9
  (if m ≤ 2 then y + 1 else y, m, d)

/-- ECMAScript `getUTCMonth`: zero-based month (0 = January, 11 = December). -/
def getUTCMonth (ms : Int) : Int := (civilFromDays (daysFromMs ms)).2.1 - 1

/-- ECMAScript `getUTCDate`: day of month, 1..31. -/
def getUTCDate (ms : Int) : Int := (civilFromDays (daysFromMs ms)).2.2

/-- ECMAScript `%` on integral values: remainder with the sign of the
dividend (truncated division). -/
def jsRemInt (a b : Int) : Int := Int.tmod a b

/-- ECMAScript truncation toward zero of a real value. -/
def ratTrunc (q : Rat) : Int := if q < 0 then -((-q).floor) else q.floor

/-- ECMAScript `%` on real values: `a - b * trunc (a / b)`. -/
def jsRemRat (a b : Rat) : Rat := a - b * (ratTrunc (a / b) : Int)

/-- ECMAScript `String.prototype.padStart` with a single pad character. -/
def padStart (s : String) (len : Nat) (c : Char) : String :=
  if len ≤ s.length then s else String.mk (List.replicate (len - s.length) c) ++ s

end SantaTracker

namespace SantaTracker

/-- `TrackingLocation` from src: a station with a name, a real-valued UTC
offset in hours, a region tag and latitude/longitude coordinates.  The
numeric literal fields of the source are exact decimals, represented
exactly by `Rat`. -/
structure TrackingLocation where
  name : String
  offset : Rat
  region : String
  coordinates : Rat × Rat
deriving Repr, DecidableEq

/-- The compiled-in station table `TRACKING_STATIONS` from the source.
Each decimal literal of the source is written as the exact reduced
fraction in `Rat`'s constructor form (for example `28.2072` is
`Rat.mk' 35259 1250` and `3.5` is `Rat.mk' 7 2`), because Lean's
scientific-literal instance for `Rat` does not reduce in the kernel; the
values are exactly the source's decimal numbers. -/
def TRACKING_STATIONS : List TrackingLocation := [
  { name := "MIDWAY", offset := -11, region := "PACIFIC", coordinates := (Rat.mk' 35259 1250, Rat.mk' (-354747) 2000) },
  { name := "HONOLULU", offset := -10, region := "PACIFIC", coordinates := (Rat.mk' 213069 10000, Rat.mk' (-1578583) 10000) },
  { name := "ANCHORAGE", offset := -9, region := "N. AMERICA", coordinates := (Rat.mk' 612181 10000, Rat.mk' (-1499003) 10000) },
  { name := "LOS ANGELES", offset := -8, region := "N. AMERICA", coordinates := (Rat.mk' 170261 5000, Rat.mk' (-1182437) 10000) },
  { name := "DENVER", offset := -7, region := "N. AMERICA", coordinates := (Rat.mk' 24837 625, Rat.mk' (-1049903) 10000) },
  { name := "CHICAGO", offset := -6, region := "N. AMERICA", coordinates := (Rat.mk' 418781 10000, Rat.mk' (-438149) 5000) },
  { name := "NEW YORK", offset := -5, region := "N. AMERICA", coordinates := (Rat.mk' 50891 1250, Rat.mk' (-37003) 500) },
  { name := "CARACAS", offset := -4, region := "S. AMERICA", coordinates := (Rat.mk' 52403 5000, Rat.mk' (-167259) 2500) },
  { name := "RIO DE JANEIRO", offset := -3, region := "S. AMERICA", coordinates := (Rat.mk' (-57267) 2500, Rat.mk' (-431729) 10000) },
  { name := "CAPE VERDE", offset := -1, region := "ATLANTIC", coordinates := (Rat.mk' 14933 1000, Rat.mk' (-235133) 10000) },
  { name := "LONDON", offset := 0, region := "EUROPE", coordinates := (Rat.mk' 257537 5000, Rat.mk' (-639) 5000) },
  { name := "PARIS", offset := 1, region := "EUROPE", coordinates := (Rat.mk' 244283 5000, Rat.mk' 11761 5000) },
  { name := "CAIRO", offset := 2, region := "AFRICA", coordinates := (Rat.mk' 75111 2500, Rat.mk' 312357 10000) },
  { name := "MOSCOW", offset := 3, region := "RUSSIA", coordinates := (Rat.mk' 278779 5000, Rat.mk' 376173 10000) },
  { name := "NAIROBI", offset := 3, region := "AFRICA", coordinates := (Rat.mk' (-804) 625, Rat.mk' 92043 2500) },
  { name := "DUBAI", offset := 4, region := "MIDDLE EAST", coordinates := (Rat.mk' 15753 625, Rat.mk' 138177 2500) },
  { name := "TEHRAN", offset := Rat.mk' 7 2, region := "MIDDLE EAST", coordinates := (Rat.mk' 89223 2500, Rat.mk' 51389 1000) },
  { name := "MUMBAI", offset := Rat.mk' 11 2, region := "ASIA", coordinates := (Rat.mk' 4769 250, Rat.mk' 728777 10000) },
  { name := "NEW DELHI", offset := Rat.mk' 11 2, region := "ASIA", coordinates := (Rat.mk' 286139 10000, Rat.mk' 77209 1000) },
  { name := "DHAKA", offset := 6, region := "ASIA", coordinates := (Rat.mk' 238103 10000, Rat.mk' 7233 80) },
  { name := "BANGKOK", offset := 7, region := "ASIA", coordinates := (Rat.mk' 137563 10000, Rat.mk' 502509 5000) },
  { name := "JAKARTA", offset := 7, region := "ASIA", coordinates := (Rat.mk' (-7761) 1250, Rat.mk' 133557 1250) },
  { name := "BEIJING", offset := 8, region := "ASIA", coordinates := (Rat.mk' 199521 5000, Rat.mk' 582037 5000) },
  { name := "TOKYO", offset := 9, region := "ASIA", coordinates := (Rat.mk' 178381 5000, Rat.mk' 1396503 10000) },
  { name := "GUAM", offset := 10, region := "PACIFIC", coordinates := (Rat.mk' 134443 10000, Rat.mk' 1447937 10000) },
  { name := "SYDNEY", offset := 11, region := "AUSTRALIA", coordinates := (Rat.mk' (-21168) 625, Rat.mk' 1512093 10000) },
  { name := "KAMCHATKA", offset := 12, region := "RUSSIA", coordinates := (Rat.mk' 561327 10000, Rat.mk' 797657 5000) },
  { name := "AUCKLAND", offset := 13, region := "NEW ZEALAND", coordinates := (Rat.mk' (-368509) 10000, Rat.mk' 349529 2000) },
  { name := "KIRITIMATI", offset := 14, region := "PACIFIC", coordinates := (Rat.mk' 18709 10000, Rat.mk' (-787007) 5000) }
]

/-- `NORTH_POLE_COORDS` from the source. -/
def NORTH_POLE_COORDS : Rat × Rat := (90, 0)

/-- The synthetic home-base station literal built in the pre-mission and
post-mission branches of `getSantaLocation`. -/
def northPoleStation : TrackingLocation :=
  { name := "NORTH POLE", region := "ARCTIC", offset := 0, coordinates := NORTH_POLE_COORDS }

/-- The result record of `getSantaLocation`. -/
structure ResolvedState where
  location : TrackingLocation
  localTime : String
  isChristmas : Bool
  visitedLocations : List (Rat × Rat)
  plannedRoute : List (Rat × Rat)
deriving Repr, DecidableEq

end SantaTracker

namespace SantaTracker

/-- Local time value of a station:
`new Date(now.getTime() + station.offset * 60 * 60 * 1000)`.
The `Date` constructor truncates its numeric argument toward zero
(ECMAScript `ToIntegerOrInfinity`), so the time value is
`trunc (now + offset * 3600000)`.  Writing the offset as the reduced
fraction `num / den` (`den > 0`), this is exactly the truncated integer
division `(now * den + num * 3600000) tdiv den`; for every offset in the
table the sum is already an exact integer number of milliseconds (offsets
are multiples of half an hour), so the truncation is the identity there. -/
def localTimeMs (nowMs : Int) (st : TrackingLocation) : Int :=
  Int.tdiv (nowMs * (st.offset.den : Int) + st.offset.num * (60 * 60 * 1000)) (st.offset.den : Int)

/-- The candidacy test of the resolver loop: the station's local calendar
date is December 25 (`localMonth === 11 && localDate === 25`). -/
def isCandidate (nowMs : Int) (st : TrackingLocation) : Prop :=
  getUTCMonth (localTimeMs nowMs st) = 11 ∧ getUTCDate (localTimeMs nowMs st) = 25

instance (nowMs : Int) (st : TrackingLocation) : Decidable (isCandidate nowMs st) := by
  unfold isCandidate; infer_instance

/-- `minutesUntilMidnight` of the resolver loop:
`(24 - localHours) * 60 - localMinutes + 1`. -/
def minutesRemaining (nowMs : Int) (st : TrackingLocation) : Int :=
  (24 - getUTCHours (localTimeMs nowMs st)) * 60 - getUTCMinutes (localTimeMs nowMs st) + 1

/-- The `for` loop of `getSantaLocation` that scans the east-to-west sorted
station list accumulating the index of the station with the strictly
smallest `minutesUntilMidnight` among those on local December 25.  The
accumulator also carries the station itself (the source keeps only the
index and later re-reads `stationsByTimezone[currentStationIndex]`, which
is this very station). `none` models `currentStationIndex === -1` /
`smallestTimeToMidnight === Infinity`. -/
def findCurrentStation (nowMs : Int) :
    List TrackingLocation → Nat → Option (Nat × TrackingLocation × Int) →
    Option (Nat × TrackingLocation × Int)
  | [], _, best => best
  | st :: rest, i, best =>
      let best' :=
        if isCandidate nowMs st then
          match best with
          | none => some (i, st, minutesRemaining nowMs st)
          | some (j, st0, b) =>
              if minutesRemaining nowMs st < b then some (i, st, minutesRemaining nowMs st)
              else some (j, st0, b)
        else best
      findCurrentStation nowMs rest (i + 1) best'

/-- `[...TRACKING_STATIONS].sort((a, b) => b.offset - a.offset)`: stable
sort by UTC offset descending.  ECMAScript `Array.prototype.sort` is
stable and consistent with the comparator; for a total preorder a stable
sort's output is unique, so any stable sorting algorithm models it.
`List.insertionSort` is stable (an element is inserted before the first
element it relates to, hence after all earlier equal-offset elements). -/
def stationsByTimezone (stations : List TrackingLocation) : List TrackingLocation :=
  stations.insertionSort (fun a b => b.offset ≤ a.offset)

/-- The local-time display computation of `getSantaLocation`:
`totalMinutes = utcHours * 60 + utcMinutes + offset * 60`,
`localH = Math.floor((totalMinutes / 60) % 24 + 24) % 24`,
`localM = Math.floor(totalMinutes % 60)`, zero-padded `HH:MM`. -/
def jsLocalTimeLabel (utcHours utcMinutes : Int) (offset : Rat) : String :=
  let totalMinutes : Rat := ((utcHours * 60 + utcMinutes : Int) : Rat) + offset * 60
  let localH : Int := jsRemInt (jsRemRat (totalMinutes / 60) 24 + 24).floor 24
  let localM : Int := (jsRemRat totalMinutes 60).floor
  padStart (toString localH) 2 '0' ++ ":" ++ padStart (toString localM) 2 '0'

/-- `getSantaLocation`, parametrized by the station table it reads and by
the observer's local timezone offset in minutes (the source reads the
ambient host timezone through `now.getDate()` / `now.getMonth()`).
Returns `none` exactly where the source throws: with an empty table,
`stationsByTimezone[0]` is `undefined` and reading `.offset` on it raises
a `TypeError` before any state is produced. -/
def getSantaLocationWith (stations : List TrackingLocation)
    (nowMs : Int) (observerTzMin : Int) : Option ResolvedState :=
  let utcHours := getUTCHours nowMs
  let utcMinutes := getUTCMinutes nowMs
  let stationsByTz := stationsByTimezone stations
  let found := findCurrentStation nowMs stationsByTz 0 none
  match stationsByTz with
  | [] => none
  | firstStation :: _ =>
    let firstLocal := localTimeMs nowMs firstStation
    let cv : TrackingLocation × List (Rat × Rat) :=
      if getUTCMonth firstLocal = 11 ∧ getUTCDate firstLocal < 25 then
        (northPoleStation, [NORTH_POLE_COORDS])
      else
        match found with
        | some (k, st, _) =>
            (st, NORTH_POLE_COORDS :: (stationsByTz.take (k + 1)).map (fun s => s.coordinates))
        | none =>
            (northPoleStation,
              NORTH_POLE_COORDS :: stationsByTz.map (fun s => s.coordinates) ++ [NORTH_POLE_COORDS])
    let observerLocal := nowMs + observerTzMin * 60000
    some {
      location := cv.1,
      localTime := jsLocalTimeLabel utcHours utcMinutes cv.1.offset,
      isChristmas := decide (getUTCDate observerLocal = 25 ∧ getUTCMonth observerLocal = 11),
      visitedLocations := cv.2,
      plannedRoute := NORTH_POLE_COORDS :: stationsByTz.map (fun s => s.coordinates) ++ [NORTH_POLE_COORDS]
    }

/-- `getSantaLocation` on the compiled-in table. -/
def getSantaLocation (nowMs : Int) (observerTzMin : Int) : Option ResolvedState :=
  getSantaLocationWith TRACKING_STATIONS nowMs observerTzMin

/-- The compiled-in table in the resolver's east-to-west order. -/
def sortedStations : List TrackingLocation := stationsByTimezone TRACKING_STATIONS

/-- `calculateGifts`: `4500000000 + (now.getTime() % 10000000) * 15`. -/
def calculateGifts (nowMs : Int) : Int :=
  4500000000 + jsRemInt nowMs 10000000 * 15


/-- The east-to-west (offset-descending, stable) enumeration of the
compiled-in table, as an explicit list: the concrete value of
`sortedStations`. -/
def sortedStationsList : List TrackingLocation := [
  { name := "KIRITIMATI", offset := 14, region := "PACIFIC", coordinates := (Rat.mk' 18709 10000, Rat.mk' (-787007) 5000) },
  { name := "AUCKLAND", offset := 13, region := "NEW ZEALAND", coordinates := (Rat.mk' (-368509) 10000, Rat.mk' 349529 2000) },
  { name := "KAMCHATKA", offset := 12, region := "RUSSIA", coordinates := (Rat.mk' 561327 10000, Rat.mk' 797657 5000) },
  { name := "SYDNEY", offset := 11, region := "AUSTRALIA", coordinates := (Rat.mk' (-21168) 625, Rat.mk' 1512093 10000) },
  { name := "GUAM", offset := 10, region := "PACIFIC", coordinates := (Rat.mk' 134443 10000, Rat.mk' 1447937 10000) },
  { name := "TOKYO", offset := 9, region := "ASIA", coordinates := (Rat.mk' 178381 5000, Rat.mk' 1396503 10000) },
  { name := "BEIJING", offset := 8, region := "ASIA", coordinates := (Rat.mk' 199521 5000, Rat.mk' 582037 5000) },
  { name := "BANGKOK", offset := 7, region := "ASIA", coordinates := (Rat.mk' 137563 10000, Rat.mk' 502509 5000) },
  { name := "JAKARTA", offset := 7, region := "ASIA", coordinates := (Rat.mk' (-7761) 1250, Rat.mk' 133557 1250) },
  { name := "DHAKA", offset := 6, region := "ASIA", coordinates := (Rat.mk' 238103 10000, Rat.mk' 7233 80) },
  { name := "MUMBAI", offset := Rat.mk' 11 2, region := "ASIA", coordinates := (Rat.mk' 4769 250, Rat.mk' 728777 10000) },
  { name := "NEW DELHI", offset := Rat.mk' 11 2, region := "ASIA", coordinates := (Rat.mk' 286139 10000, Rat.mk' 77209 1000) },
  { name := "DUBAI", offset := 4, region := "MIDDLE EAST", coordinates := (Rat.mk' 15753 625, Rat.mk' 138177 2500) },
  { name := "TEHRAN", offset := Rat.mk' 7 2, region := "MIDDLE EAST", coordinates := (Rat.mk' 89223 2500, Rat.mk' 51389 1000) },
  { name := "MOSCOW", offset := 3, region := "RUSSIA", coordinates := (Rat.mk' 278779 5000, Rat.mk' 376173 10000) },
  { name := "NAIROBI", offset := 3, region := "AFRICA", coordinates := (Rat.mk' (-804) 625, Rat.mk' 92043 2500) },
  { name := "CAIRO", offset := 2, region := "AFRICA", coordinates := (Rat.mk' 75111 2500, Rat.mk' 312357 10000) },
  { name := "PARIS", offset := 1, region := "EUROPE", coordinates := (Rat.mk' 244283 5000, Rat.mk' 11761 5000) },
  { name := "LONDON", offset := 0, region := "EUROPE", coordinates := (Rat.mk' 257537 5000, Rat.mk' (-639) 5000) },
  { name := "CAPE VERDE", offset := -1, region := "ATLANTIC", coordinates := (Rat.mk' 14933 1000, Rat.mk' (-235133) 10000) },
  { name := "RIO DE JANEIRO", offset := -3, region := "S. AMERICA", coordinates := (Rat.mk' (-57267) 2500, Rat.mk' (-431729) 10000) },
  { name := "CARACAS", offset := -4, region := "S. AMERICA", coordinates := (Rat.mk' 52403 5000, Rat.mk' (-167259) 2500) },
  { name := "NEW YORK", offset := -5, region := "N. AMERICA", coordinates := (Rat.mk' 50891 1250, Rat.mk' (-37003) 500) },
  { name := "CHICAGO", offset := -6, region := "N. AMERICA", coordinates := (Rat.mk' 418781 10000, Rat.mk' (-438149) 5000) },
  { name := "DENVER", offset := -7, region := "N. AMERICA", coordinates := (Rat.mk' 24837 625, Rat.mk' (-1049903) 10000) },
  { name := "LOS ANGELES", offset := -8, region := "N. AMERICA", coordinates := (Rat.mk' 170261 5000, Rat.mk' (-1182437) 10000) },
  { name := "ANCHORAGE", offset := -9, region := "N. AMERICA", coordinates := (Rat.mk' 612181 10000, Rat.mk' (-1499003) 10000) },
  { name := "HONOLULU", offset := -10, region := "PACIFIC", coordinates := (Rat.mk' 213069 10000, Rat.mk' (-1578583) 10000) },
  { name := "MIDWAY", offset := -11, region := "PACIFIC", coordinates := (Rat.mk' 35259 1250, Rat.mk' (-354747) 2000) }
]

/-- The resolver's sort of the compiled-in table evaluates to the explicit
east-to-west list. -/
theorem sortedStations_eq : sortedStations = sortedStationsList := by
  decide

end SantaTracker

namespace SantaTracker

/-- `REGION_LOGS` from the source: region tag to message set. -/
def REGION_LOGS : List (String × List String) := [
  ("PACIFIC", ["PACIFIC COMMAND: RADAR CONTACT CONFIRMED", "OCEANIC SENSORS DETECT SLEIGH WAKE",
    "US NAVY FLEET REPORTS VISUAL", "TROPICAL WEATHER SYSTEMS: CLEAR"]),
  ("NEW ZEALAND", ["KIWI SECTOR: AIRSPACE CLEAR", "SOUTHERN CROSS VISUAL CONFIRMED", "WELLINGTON CONTROL: GREETINGS"]),
  ("AUSTRALIA", ["RAAF INTERCEPTORS SCRAMBLED FOR ESCORT", "OUTBACK SENSORS ONLINE", "OPERATING IN SOUTHERN HEMISPHERE"]),
  ("ASIA", ["HIGH DENSITY POPULATION SECTOR", "MANEUVERING AROUND SKYSCRAPERS", "ORIENTAL AIR DEFENSE: FRIENDLY",
    "SPEED INCREASED FOR DENSITY"]),
  ("RUSSIA", ["ENTERING RUSSIAN FEDERATION AIRSPACE", "SIBERIAN THERMAL ANOMALY DETECTED", "COSMODROME TRACKING ACTIVE"]),
  ("EUROPE", ["NATO EYES ONLY: TARGET TRACKING ACTIVE", "ALPINE RADAR ECHOES", "EU AIR TRAFFIC CONTROL: PRIORITY CLEARANCE"]),
  ("AFRICA", ["SAHARA THERMAL PLUME STABLE", "EQUATORIAL CROSSING CONFIRMED", "CONTINENTAL SCANS: GREEN"]),
  ("ATLANTIC", ["MID-ATLANTIC RIDGE SENSORS ACTIVE", "CARRIER GROUP REPORTS FLYBY", "METEOROLOGICAL DATA: HEADWINDS"]),
  ("N. AMERICA", ["NORAD MAIN SENSORS: 100% CONFIDENCE", "EAST COAST DEFENSE GRID: GREEN",
    "CANADIAN NORAD REGION: CONTACT", "FIGHTER WING DEPLOYED AS HONOR GUARD"]),
  ("S. AMERICA", ["SOUTHERN CONE RADAR: ACTIVE", "AMAZON BASIN THERMAL SCAN: CLEAR"]),
  ("MIDDLE EAST", ["DESERT SENSORS ONLINE", "AIRSPACE CORRIDOR SECURED"]),
  ("ARCTIC", ["POLAR VORTEX NAVIGATION ENGAGED", "HOME BASE TELEMETRY LINKED", "AURORA BOREALIS INTERFERENCE: NEGLIGIBLE"])
]

/-- `REGION_LOGS[region]`: record lookup, `none` when the key is absent
(a JavaScript record access yielding `undefined`, which is falsy; present
values are non-empty arrays, which are truthy). -/
def lookupRegion (region : String) : Option (List String) :=
  (REGION_LOGS.find? (fun p => p.1 == region)).map (fun p => p.2)

/-- `ACTION_LOGS` from the source. -/
def ACTION_LOGS : List String := [
  "TARGET LOCKED: %LOC%",
  "INITIATING DELIVERY SEQUENCE: %LOC%",
  "THERMAL SPIKE DETECTED OVER %LOC%",
  "DROPPING TO ROOFTOP ALTITUDE: %LOC%",
  "SONIC BOOM REPORTED NEAR %LOC%",
  "LOCAL AUTHORITIES IN %LOC% NOTIFIED",
  "HYPER-SPEED JUMP TO %LOC% COMPLETE",
  "MAGIC DUST LEVELS: NOMINAL",
  "TIME DILATION FIELD: ACTIVE",
  "CHIMNEY ENTRY PROTOCOL: INITIATED"
]

/-- `GENERIC_LOGS` from the source. -/
def GENERIC_LOGS : List String := [
  "RADAR CONTACT: CONFIRMED // ID: RED SLED",
  "THERMAL SIGNATURE STABLE // EGT NORMAL",
  "AIRSPACE CLEARED FOR TRANSIT",
  "GROUND SENSORS DETECT HIGH VELOCITY OBJECT",
  "COMM CHATTER: 'MERRY CHRISTMAS' DETECTED",
  "REINDEER PROPULSION SYSTEMS NOMINAL",
  "CLOAKING DEVICE: DISENGAGED FOR LANDING",
  "INTERCEPT SQUADRON RTB // TARGET FRIENDLY",
  "ATMOSPHERIC ENTRY DETECTED // SHIELDS HOLDING",
  "TRAJECTORY ALIGNMENT: OPTIMAL",
  "VISIBILITY: UNLIMITED // CEILING: 50,000 FT"
]

/-- The `templates` array of the `NORTH POLE` branch of `generateIntelMessage`. -/
def NORTH_POLE_TEMPLATES : List String := [
  "MISSION STATUS: STANDBY / DEBRIEF",
  "ELVES LOADING FINAL PAYLOAD MANIFEST",
  "PRE-FLIGHT DIAGNOSTICS: ALL GREEN",
  "AWAITING LAUNCH WINDOW // UTC 10:00",
  "MAINTENANCE CREWS ATTENDING RED SLED",
  "REINDEER FEEDING IN PROGRESS"
]

/-- `arr[Math.floor(r * arr.length)]`, the uniform pick used throughout
`generateIntelMessage` with `r = Math.random() ∈ [0, 1)`; out-of-range
indices (impossible for `r ∈ [0, 1)` and non-empty `arr`) fall back to
the empty string, where JavaScript would yield `undefined`. -/
def pickUniform (arr : List String) (r : Rat) : String :=
  arr.getD ((r * (arr.length : Rat)).floor.toNat) ""

/-- `Number.prototype.toFixed(f)`: the decimal string with exactly `f`
fractional digits of the integer `n` nearest to `q * 10^f`, ties toward
the larger `n`, so `n = floor (q * 10^f + 1/2)`.  (Negative values with a
rounded magnitude of zero would print as `-0.0…`; that case is not
exercised here, the sign is taken from `n`.) -/
def toFixed (q : Rat) (f : Nat) : String :=
  let n : Int := (q * ((10 : Rat) ^ f) + Rat.mk' 1 2).floor
  let p : Nat := 10 ^ f
  let sign := if n < 0 then "-" else ""
  let a := n.natAbs
  sign ++ toString (a / p) ++ "." ++ padStart (toString (a % p)) f '0'

/-- `generateIntelMessage(locationName, region, speed, delivered)`.
The source draws from `Math.random()` at most twice on every control
path: once for `rand` (or for the pick in the `NORTH POLE` branch) and
once inside the selected branch.  The draws are passed explicitly:
`r1` is the first `Math.random()` value evaluated, `r2` the second.
The `%LOC%` templates contain at most one occurrence of the placeholder,
so `String.replace` (all occurrences) agrees with JavaScript
`String.prototype.replace` with a string pattern (first occurrence). -/
def generateIntelMessage (locationName region : String) (speed delivered : Rat)
    (r1 r2 : Rat) : String :=
  if locationName = "NORTH POLE" then
    pickUniform NORTH_POLE_TEMPLATES r1
  else
    let rand := r1
    if rand < Rat.mk' 2 5 then
      (pickUniform ACTION_LOGS r2).replace "%LOC%" locationName
    else if rand < Rat.mk' 7 10 ∧ (lookupRegion region).isSome then
      pickUniform ((lookupRegion region).getD []) r2
    else if rand < Rat.mk' 17 20 then
      if r2 > Rat.mk' 1 2 then
        "CURRENT VELOCITY: MACH " ++ toFixed speed 2 ++ " // HULL INTEGRITY 100%"
      else
        "PAYLOAD UPDATE: " ++ toFixed (delivered / 1000000000) 3 ++ "B UNITS CONFIRMED"
    else
      pickUniform GENERIC_LOGS r2

end SantaTracker

namespace SantaTracker

/-- The sort inside `getSantaLocationWith TRACKING_STATIONS` in explicit form. -/
theorem stationsByTimezone_TRACKING : stationsByTimezone TRACKING_STATIONS = sortedStationsList :=
  sortedStations_eq

end SantaTracker

/-- C9: for every timestamp, `calculateGifts` returns exactly the base
constant `4500000000` plus `(now mod 10000000) * 15`, in exact integer
arithmetic, as a pure deterministic function of the timestamp (the
embedding is a function of `nowMs` only, so determinism and absence of
persisted accumulation are structural). -/
theorem calculateGifts_spec (nowMs : Int) (h : 0 ≤ nowMs) :
    SantaTracker.calculateGifts nowMs = 4500000000 + nowMs % 10000000 * 15 := by
  unfold SantaTracker.calculateGifts SantaTracker.jsRemInt
  rw [Int.tmod_eq_emod h (by norm_num)]

/-- Witness for C9 at the concrete timestamp 1766620800000
(2025-12-25 00:00:00 UTC). -/
theorem calculateGifts_spec_witness :
    (0 : Int) ≤ 1766620800000 ∧
      SantaTracker.calculateGifts 1766620800000 = 4500000000 + 1766620800000 % 10000000 * 15 :=
  ⟨by norm_num, calculateGifts_spec 1766620800000 (by norm_num)⟩

/-- C5: for every timestamp (and observer timezone), the planned route is
the full closed loop: it starts and ends with the home-base coordinates
and its length is `stationCount + 2`, independent of mission progress. -/
theorem plannedRoute_closed_loop (nowMs observerTzMin : Int) :
    (SantaTracker.getSantaLocation nowMs observerTzMin).map
        (fun r => (r.plannedRoute.head?, r.plannedRoute.getLast?, r.plannedRoute.length)) =
      some (some SantaTracker.NORTH_POLE_COORDS, some SantaTracker.NORTH_POLE_COORDS,
        SantaTracker.TRACKING_STATIONS.length + 2) := by
  simp only [SantaTracker.getSantaLocation, SantaTracker.getSantaLocationWith,
    SantaTracker.stationsByTimezone_TRACKING, SantaTracker.sortedStationsList]
  simp only [Option.map_some']
  decide

/-- C8 (counterexample): with `locationName = "PARIS"`, a region
`"NOWHERE"` that has no message set, and the region-band draw
`r = 0.5 ∈ [0.4, 0.7)`, the generator does NOT pick from the generic
fallback set: it falls through to the stats branch and produces the
velocity message, which is not an element of `GENERIC_LOGS`. -/
theorem generateIntelMessage_region_band_counterexample :
    SantaTracker.generateIntelMessage "PARIS" "NOWHERE" 2 5000000000 (Rat.mk' 1 2) (Rat.mk' 3 5) =
        "CURRENT VELOCITY: MACH 2.00 // HULL INTEGRITY 100%" ∧
      SantaTracker.lookupRegion "NOWHERE" = none ∧
      (Rat.mk' 2 5 : Rat) ≤ Rat.mk' 1 2 ∧ (Rat.mk' 1 2 : Rat) < Rat.mk' 7 10 ∧
      "CURRENT VELOCITY: MACH 2.00 // HULL INTEGRITY 100%" ∉ SantaTracker.GENERIC_LOGS := by
  refine ⟨?_, by decide, by decide, by decide, by decide⟩
  with_unfolding_all decide

/-- C8 (amended): for a non-home-base location and a region with no
associated message set, a draw `r1 ∈ [0.4, 0.7)` falls through to the
stats branch (`r1 < 0.85`), producing the velocity or payload status
message according to the second draw; the generic fallback set is only
reached for `r1 ≥ 0.85`. -/
theorem generateIntelMessage_region_band_fallthrough
    (name region : String) (speed delivered r1 r2 : Rat)
    (hname : name ≠ "NORTH POLE") (hregion : SantaTracker.lookupRegion region = none)
    (h1 : Rat.mk' 2 5 ≤ r1) (h2 : r1 < Rat.mk' 7 10) :
    SantaTracker.generateIntelMessage name region speed delivered r1 r2 =
      if r2 > Rat.mk' 1 2 then
        "CURRENT VELOCITY: MACH " ++ SantaTracker.toFixed speed 2 ++ " // HULL INTEGRITY 100%"
      else
        "PAYLOAD UPDATE: " ++ SantaTracker.toFixed (delivered / 1000000000) 3 ++ "B UNITS CONFIRMED" := by
  unfold SantaTracker.generateIntelMessage
  rw [if_neg hname, if_neg (not_lt.2 h1),
    if_neg (fun h => by rw [hregion] at h; exact absurd h.2 (by decide)),
    if_pos (lt_trans h2 (by decide))]

/-- Witness for the amended C8 at concrete inputs. -/
theorem generateIntelMessage_region_band_fallthrough_witness :
    "PARIS" ≠ "NORTH POLE" ∧ SantaTracker.lookupRegion "NOWHERE" = none ∧
      SantaTracker.generateIntelMessage "PARIS" "NOWHERE" 2 5000000000 (Rat.mk' 1 2) (Rat.mk' 3 5) =
        if (Rat.mk' 3 5 : Rat) > Rat.mk' 1 2 then
          "CURRENT VELOCITY: MACH " ++ SantaTracker.toFixed 2 2 ++ " // HULL INTEGRITY 100%"
        else
          "PAYLOAD UPDATE: " ++ SantaTracker.toFixed ((5000000000 : Rat) / 1000000000) 3 ++ "B UNITS CONFIRMED" :=
  ⟨by decide, by decide,
    generateIntelMessage_region_band_fallthrough "PARIS" "NOWHERE" 2 5000000000
      (Rat.mk' 1 2) (Rat.mk' 3 5) (by decide) (by decide) (by decide) (by decide)⟩

/-- C2 (counterexample): at `now = 1766707200000` (2025-12-26 00:00 UTC)
the LONDON station (offset 0) is locally at exactly 00:00 on December 26,
the day after the target day, yet it is NOT a candidate (its local date
is 26, not 25), contradicting the claim that it is still a candidate
reporting exactly 1 minute remaining. -/
theorem midnight_day_after_excluded_counterexample :
    SantaTracker.getUTCMonth (SantaTracker.localTimeMs 1766707200000
        { name := "LONDON", offset := 0, region := "EUROPE",
          coordinates := (Rat.mk' 257537 5000, Rat.mk' (-639) 5000) }) = 11 ∧
    SantaTracker.getUTCDate (SantaTracker.localTimeMs 1766707200000
        { name := "LONDON", offset := 0, region := "EUROPE",
          coordinates := (Rat.mk' 257537 5000, Rat.mk' (-639) 5000) }) = 26 ∧
    SantaTracker.getUTCHours (SantaTracker.localTimeMs 1766707200000
        { name := "LONDON", offset := 0, region := "EUROPE",
          coordinates := (Rat.mk' 257537 5000, Rat.mk' (-639) 5000) }) = 0 ∧
    SantaTracker.getUTCMinutes (SantaTracker.localTimeMs 1766707200000
        { name := "LONDON", offset := 0, region := "EUROPE",
          coordinates := (Rat.mk' 257537 5000, Rat.mk' (-639) 5000) }) = 0 ∧
    ¬ SantaTracker.isCandidate 1766707200000
        { name := "LONDON", offset := 0, region := "EUROPE",
          coordinates := (Rat.mk' 257537 5000, Rat.mk' (-639) 5000) } := by
  decide

/-- C2 (amended): a station whose local date is the day after the target
day (the 26th) is excluded from candidacy, and every station at every
timestamp reports at least 2 minutes remaining (the formula
`(24 - h) * 60 - m + 1` attains its minimum 2 at local 23:59 of the
target day), so a value of 1 minute, or 0 or negative, never occurs. -/
theorem midnight_day_after_excluded (nowMs : Int) (st : SantaTracker.TrackingLocation)
    (h26 : SantaTracker.getUTCDate (SantaTracker.localTimeMs nowMs st) = 26) :
    ¬ SantaTracker.isCandidate nowMs st ∧ 2 ≤ SantaTracker.minutesRemaining nowMs st := by
  constructor
  · intro h
    have h25 := h.2
    unfold SantaTracker.isCandidate at h
    omega
  · unfold SantaTracker.minutesRemaining SantaTracker.getUTCHours SantaTracker.getUTCMinutes
      SantaTracker.msOfDay
    omega

/-- Witness for the amended C2: LONDON at 2025-12-26 00:00 UTC. -/
theorem midnight_day_after_excluded_witness :
    SantaTracker.getUTCDate (SantaTracker.localTimeMs 1766707200000
        { name := "LONDON", offset := 0, region := "EUROPE",
          coordinates := (Rat.mk' 257537 5000, Rat.mk' (-639) 5000) }) = 26 ∧
    (¬ SantaTracker.isCandidate 1766707200000
        { name := "LONDON", offset := 0, region := "EUROPE",
          coordinates := (Rat.mk' 257537 5000, Rat.mk' (-639) 5000) } ∧
      2 ≤ SantaTracker.minutesRemaining 1766707200000
        { name := "LONDON", offset := 0, region := "EUROPE",
          coordinates := (Rat.mk' 257537 5000, Rat.mk' (-639) 5000) }) :=
  ⟨by decide, midnight_day_after_excluded 1766707200000
    { name := "LONDON", offset := 0, region := "EUROPE",
      coordinates := (Rat.mk' 257537 5000, Rat.mk' (-639) 5000) } (by decide)⟩

/-- C3 (counterexample): with an empty station table the resolver does
not return a well-defined pre-mission state: it fails (the source reads
`.offset` of `stationsByTimezone[0]`, which is `undefined`, raising a
`TypeError`, modelled by `none`). -/
theorem empty_table_throws_counterexample :
    SantaTracker.getSantaLocationWith [] 0 0 = none := by
  decide

/-- C3 (amended): with an empty table the resolver fails for every
timestamp (the source dereferences the missing first station); with the
compiled-in non-empty table it always returns a state, and whenever no
station is on the target day the returned current location is the home
base (pre-mission or post-mission branch). -/
theorem empty_table_behaviour :
    (∀ nowMs observerTzMin : Int,
        SantaTracker.getSantaLocationWith [] nowMs observerTzMin = none) ∧
    ∀ nowMs observerTzMin : Int, ∃ r,
      SantaTracker.getSantaLocation nowMs observerTzMin = some r ∧
      (SantaTracker.findCurrentStation nowMs SantaTracker.sortedStationsList 0 none = none →
        r.location = SantaTracker.northPoleStation ∧
          (r.visitedLocations = [SantaTracker.NORTH_POLE_COORDS] ∨
            r.visitedLocations = SantaTracker.NORTH_POLE_COORDS ::
              SantaTracker.sortedStationsList.map (fun s => s.coordinates) ++
                [SantaTracker.NORTH_POLE_COORDS])) := by
  constructor
  · intro nowMs observerTzMin
    rfl
  · intro nowMs observerTzMin
    simp only [SantaTracker.getSantaLocation, SantaTracker.getSantaLocationWith,
      SantaTracker.stationsByTimezone_TRACKING]
    refine ⟨_, rfl, fun hnone => ?_⟩
    rw [hnone]
    split
    · exact ⟨rfl, Or.inl rfl⟩
    · exact ⟨rfl, Or.inr rfl⟩

/-- Witness for the amended C3 at `now = 0` (1970-01-01, no station on
the target day; the resolver returns the home base). -/
theorem empty_table_behaviour_witness :
    SantaTracker.getSantaLocationWith [] 0 0 = none ∧
      (SantaTracker.getSantaLocation 0 0).map (fun r => r.location) =
        some SantaTracker.northPoleStation := by
  refine ⟨empty_table_behaviour.1 0 0, ?_⟩
  obtain ⟨r, hr, himp⟩ := empty_table_behaviour.2 0 0
  rw [hr, Option.map_some']
  exact congrArg some (himp (by decide)).1

namespace SantaTracker

/-- Written from the spec's words (§4.1 step 8), for comparison with the
code's label: total minutes normalized into `[0, 1440)` via modulo with a
correction for negative results (Euclidean remainder), formatted as
zero-padded `HH:MM`. -/
def specLocalTimeLabel (totalMinutes : Int) : String :=
  let t := totalMinutes % 1440
  padStart (toString (t / 60)) 2 '0' ++ ":" ++ padStart (toString (t % 60)) 2 '0'

/-- `Rat.floor` agrees with the `Int.floor` of the `FloorRing` instance. -/
theorem ratFloor_eq_intFloor (q : Rat) : q.floor = ⌊q⌋ :=
  (Rat.floor_def' q).trans Rat.floor_def.symm

/-- Truncation toward zero of a nonnegative integer quotient is its floor
division. -/
theorem ratTrunc_intCast_div_natCast (a : Int) (d : Nat) (ha : 0 ≤ a) :
    ratTrunc ((a : Rat) / (d : Rat)) = a / (d : Int) := by
  unfold ratTrunc
  rw [if_neg (not_lt.2 (by positivity)), ratFloor_eq_intFloor, Rat.floor_intCast_div_natCast]

end SantaTracker

namespace SantaTracker

/-- The code's minutes component for a nonnegative integral total-minutes
value: JavaScript `Math.floor(totalMinutes % 60)` is the Euclidean
remainder. -/
theorem jsRemRat_sixty_floor (T : Int) (hT : 0 ≤ T) :
    (jsRemRat (T : Rat) 60).floor = T % 60 := by
  unfold jsRemRat
  have h60 : ((60 : Rat)) = ((60 : Nat) : Rat) := by norm_num
  rw [h60, ratTrunc_intCast_div_natCast T 60 hT]
  have hc : ((T : Rat) - ((60 : Nat) : Rat) * ((T / ((60 : Nat) : Int) : Int) : Rat)) =
      ((T - 60 * (T / 60) : Int) : Rat) := by push_cast; ring
  rw [hc, ratFloor_eq_intFloor, Int.floor_intCast]
  omega

/-- The code's hours component for a nonnegative integral total-minutes
value: `Math.floor((totalMinutes / 60) % 24 + 24) % 24` equals
`(totalMinutes % 1440) / 60`. -/
theorem jsRemRat_hours_floor (T : Int) (hT : 0 ≤ T) :
    jsRemInt (jsRemRat ((T : Rat) / 60) 24 + 24).floor 24 = T % 1440 / 60 := by
  unfold jsRemRat
  have hdd : ((T : Rat) / 60 / 24) = (T : Rat) / ((1440 : Nat) : Rat) := by
    rw [div_div]; norm_num
  rw [hdd, ratTrunc_intCast_div_natCast T 1440 hT]
  have hc : ((T : Rat) / 60 - 24 * ((T / ((1440 : Nat) : Int) : Int) : Rat) + 24) =
      (T : Rat) / ((60 : Nat) : Rat) + ((24 - 24 * (T / 1440) : Int) : Rat) := by
    push_cast; ring
  rw [hc, ratFloor_eq_intFloor, Int.floor_add_int, Rat.floor_intCast_div_natCast]
  unfold jsRemInt
  rw [Int.tmod_eq_emod (by omega) (by norm_num)]
  omega

end SantaTracker

/-- C4 (counterexample): at 2025-12-26 00:30 UTC the resolved current
station is CAPE VERDE (offset −1), total minutes is 30 − 60 = −30, and
the code's label is `"23:-30"` (the negative-result correction is applied
to the hours only, not to the minutes), while the claimed normalization
into `[0, 1440)` would give `"23:30"`. -/
theorem localTimeLabel_counterexample :
    (SantaTracker.getSantaLocation 1766709000000 0).map (fun r => (r.location.name, r.localTime)) =
        some ("CAPE VERDE", "23:-30") ∧
      SantaTracker.specLocalTimeLabel
          (SantaTracker.getUTCHours 1766709000000 * 60 +
            SantaTracker.getUTCMinutes 1766709000000 + (-1) * 60) = "23:30" ∧
      ("23:-30" : String) ≠ "23:30" := by
  refine ⟨?_, by decide, by decide⟩
  simp only [SantaTracker.getSantaLocation, SantaTracker.getSantaLocationWith,
    SantaTracker.stationsByTimezone_TRACKING, SantaTracker.sortedStationsList]
  with_unfolding_all decide

/-- C4 (amended): the resolver's label is
`jsLocalTimeLabel utcHours utcMinutes offset`; whenever the total
minutes `utcHours*60 + utcMinutes + offset*60` is nonnegative this
agrees with the claimed normalize-into-`[0,1440)` formula, and the
claim's own example holds: at UTC 00:00 with offset −5 the label is
`"19:00"` (total minutes −300 is a multiple of 60, so the unfixed
negative minutes component is still `"00"`).  For negative total minutes
that are not a multiple of 60 the code renders a negative minutes
component (see the counterexample). -/
theorem localTimeLabel_formula :
    (∀ nowMs observerTzMin r, SantaTracker.getSantaLocation nowMs observerTzMin = some r →
        r.localTime = SantaTracker.jsLocalTimeLabel (SantaTracker.getUTCHours nowMs)
          (SantaTracker.getUTCMinutes nowMs) r.location.offset) ∧
    (∀ (hh mm om : Int) (offset : Rat), offset * 60 = (om : Rat) → 0 ≤ hh * 60 + mm + om →
        SantaTracker.jsLocalTimeLabel hh mm offset =
          SantaTracker.specLocalTimeLabel (hh * 60 + mm + om)) ∧
    SantaTracker.jsLocalTimeLabel 0 0 (-5) = "19:00" := by
  refine ⟨?_, ?_, by with_unfolding_all decide⟩
  · intro nowMs observerTzMin r h
    simp only [SantaTracker.getSantaLocation, SantaTracker.getSantaLocationWith,
      SantaTracker.stationsByTimezone_TRACKING, SantaTracker.sortedStationsList] at h
    obtain rfl := (Option.some.inj h).symm
    rfl
  · intro hh mm om offset hoff hT
    simp only [SantaTracker.jsLocalTimeLabel, SantaTracker.specLocalTimeLabel]
    have htm : ((hh * 60 + mm : Int) : Rat) + offset * 60 = ((hh * 60 + mm + om : Int) : Rat) := by
      rw [hoff]; push_cast; ring
    rw [htm, SantaTracker.jsRemRat_hours_floor (hh * 60 + mm + om) hT,
      SantaTracker.jsRemRat_sixty_floor (hh * 60 + mm + om) hT,
      show (hh * 60 + mm + om) % 60 = (hh * 60 + mm + om) % 1440 % 60 from by omega]

/-- Witness for the amended C4: UTC 00:30 with offset +9 (total minutes
570) formats as `"09:30"` through both the code's computation and the
spec's normalization. -/
theorem localTimeLabel_formula_witness :
    ((9 : Rat) * 60 = ((540 : Int) : Rat)) ∧ (0 : Int) ≤ 0 * 60 + 30 + 540 ∧
      SantaTracker.jsLocalTimeLabel 0 30 9 = SantaTracker.specLocalTimeLabel (0 * 60 + 30 + 540) :=
  ⟨by norm_num, by norm_num,
    localTimeLabel_formula.2.1 0 30 540 9 (by norm_num) (by norm_num)⟩

namespace SantaTracker

/-- The station carried by the resolver loop's accumulator comes from the
scanned list (or from the initial accumulator). -/
theorem findCurrentStation_station_mem (nowMs : Int) (S : List TrackingLocation) :
    ∀ (l : List TrackingLocation) (i : Nat) (acc : Option (Nat × TrackingLocation × Int)),
      (∀ x ∈ l, x ∈ S) →
      (∀ k st m, acc = some (k, st, m) → st ∈ S) →
      ∀ k st m, findCurrentStation nowMs l i acc = some (k, st, m) → st ∈ S := by
  intro l
  induction l with
  | nil =>
    intro i acc _ hacc k st m h
    exact hacc k st m h
  | cons x xs ih =>
    intro i acc hl hacc k st m h
    refine ih (i + 1) _ (fun y hy => hl y (List.mem_cons_of_mem x hy)) ?_ k st m h
    intro k0 st0 m0 hacc0
    by_cases hc : isCandidate nowMs x
    · rw [if_pos hc] at hacc0
      rcases acc with _ | ⟨j, st1, b⟩
      · simp only [Option.some.injEq, Prod.mk.injEq] at hacc0
        obtain ⟨-, h2, -⟩ := hacc0
        exact h2 ▸ hl x (List.mem_cons_self x xs)
      · dsimp only at hacc0
        by_cases hlt : minutesRemaining nowMs x < b
        · rw [if_pos hlt] at hacc0
          simp only [Option.some.injEq, Prod.mk.injEq] at hacc0
          obtain ⟨-, h2, -⟩ := hacc0
          exact h2 ▸ hl x (List.mem_cons_self x xs)
        · rw [if_neg hlt] at hacc0
          exact hacc k0 st0 m0 hacc0
    · rw [if_neg hc] at hacc0
      exact hacc k0 st0 m0 hacc0

/-- Uniform pick from a non-empty list with a draw in `[0, 1)` yields an
element of the list. -/
theorem pickUniform_mem (arr : List String) (r : Rat) (h0 : 0 ≤ r) (h1 : r < 1)
    (hne : arr ≠ []) : pickUniform arr r ∈ arr := by
  unfold pickUniform
  have hlen : 0 < arr.length := List.length_pos.2 hne
  have hfl : (r * (arr.length : Rat)).floor < (arr.length : Int) := by
    rw [ratFloor_eq_intFloor]
    refine Int.floor_lt.2 ?_
    calc (r * (arr.length : Rat)) < 1 * (arr.length : Rat) := by
          exact mul_lt_mul_of_pos_right h1 (by exact_mod_cast hlen)
      _ = ((arr.length : Int) : Rat) := by push_cast; ring
  have hidx : (r * (arr.length : Rat)).floor.toNat < arr.length := by
    omega
  rw [List.getD_eq_getElem?_getD, List.getElem?_eq_getElem hidx]
  exact List.getElem_mem hidx

end SantaTracker

/-- C10: every region tag of the compiled-in table, and the home base's
ARCTIC tag, has an entry in `REGION_LOGS`; consequently every current
location the resolver can produce has a region with a message set, and
for such regions a region-band draw always picks from the region's
message set (the missing-region fall-through of the generator is
unreachable for resolver-produced locations). -/
theorem region_logs_cover_stations :
    (∀ st ∈ SantaTracker.TRACKING_STATIONS, (SantaTracker.lookupRegion st.region).isSome) ∧
    (SantaTracker.lookupRegion SantaTracker.northPoleStation.region).isSome ∧
    (∀ nowMs observerTzMin r, SantaTracker.getSantaLocation nowMs observerTzMin = some r →
      (SantaTracker.lookupRegion r.location.region).isSome) ∧
    (∀ (name region : String) (speed delivered r1 r2 : Rat) msgs,
      SantaTracker.lookupRegion region = some msgs → name ≠ "NORTH POLE" →
      Rat.mk' 2 5 ≤ r1 → r1 < Rat.mk' 7 10 → 0 ≤ r2 → r2 < 1 →
      SantaTracker.generateIntelMessage name region speed delivered r1 r2 ∈ msgs) := by
  refine ⟨by decide, by decide, ?_, ?_⟩
  · intro nowMs observerTzMin r h
    simp only [SantaTracker.getSantaLocation, SantaTracker.getSantaLocationWith,
      SantaTracker.stationsByTimezone_TRACKING, SantaTracker.sortedStationsList] at h
    obtain rfl := (Option.some.inj h).symm
    have hcover : ∀ x ∈ SantaTracker.sortedStationsList,
        (SantaTracker.lookupRegion x.region).isSome := by decide
    dsimp only
    split
    · decide
    · rcases hF : SantaTracker.findCurrentStation nowMs SantaTracker.sortedStationsList 0 none with
        _ | ⟨k, st, m⟩
      · rw [SantaTracker.sortedStationsList] at hF
        rw [hF]
        decide
      · rw [SantaTracker.sortedStationsList] at hF
        rw [hF]
        exact hcover st (SantaTracker.findCurrentStation_station_mem nowMs
          SantaTracker.sortedStationsList SantaTracker.sortedStationsList 0 none
          (fun x hx => hx) (by intro k0 st0 m0 h0; exact absurd h0 (by simp)) k st m
          (by rw [SantaTracker.sortedStationsList]; exact hF))
  · intro name region speed delivered r1 r2 msgs hmsgs hname h1 h2 hr0 hr1
    have hmem : ∀ p ∈ SantaTracker.REGION_LOGS, p.2 ≠ [] := by decide
    unfold SantaTracker.generateIntelMessage
    rw [if_neg hname, if_neg (not_lt.2 h1),
      if_pos ⟨h2, by rw [hmsgs]; rfl⟩, hmsgs]
    refine SantaTracker.pickUniform_mem msgs r2 hr0 hr1 ?_
    have := SantaTracker.lookupRegion
    unfold SantaTracker.lookupRegion at hmsgs
    rcases hfind : SantaTracker.REGION_LOGS.find? (fun p => p.1 == region) with _ | p
    · rw [hfind] at hmsgs; exact absurd hmsgs (by simp)
    · rw [hfind] at hmsgs
      simp only [Option.map_some'] at hmsgs
      exact (Option.some.inj hmsgs) ▸ hmem p (List.mem_of_find?_eq_some hfind)

namespace SantaTracker

/-- Invariant of the resolver loop after scanning the first `i` stations
of the east-to-west list `L`: the accumulator is `none` exactly when no
scanned station was a candidate; otherwise it holds the first index among
the scanned candidates attaining the strictly smallest
`minutesUntilMidnight` (ties keep the earlier index), together with that
station and its value. -/
def ScanInv (nowMs : Int) (L : List TrackingLocation) (i : Nat) :
    Option (Nat × TrackingLocation × Int) → Prop
  | none => ∀ j (hj : j < L.length), j < i → ¬ isCandidate nowMs (L.get ⟨j, hj⟩)
  | some (k, st, m) =>
      k < i ∧ ∃ hk : k < L.length, L.get ⟨k, hk⟩ = st ∧ isCandidate nowMs st ∧
        m = minutesRemaining nowMs st ∧
        (∀ j (hj : j < L.length), j < i → isCandidate nowMs (L.get ⟨j, hj⟩) →
          m ≤ minutesRemaining nowMs (L.get ⟨j, hj⟩)) ∧
        (∀ j (hj : j < L.length), j < k → isCandidate nowMs (L.get ⟨j, hj⟩) →
          m < minutesRemaining nowMs (L.get ⟨j, hj⟩))

/-- The resolver loop preserves `ScanInv` and establishes it for the
whole list. -/
theorem findCurrentStation_inv (nowMs : Int) (L : List TrackingLocation) :
    ∀ (l : List TrackingLocation) (i : Nat) (acc : Option (Nat × TrackingLocation × Int)),
      L.drop i = l → ScanInv nowMs L i acc →
      ScanInv nowMs L L.length (findCurrentStation nowMs l i acc) := by
  intro l
  induction l with
  | nil =>
    intro i acc hdrop hinv
    have hle : L.length ≤ i := by
      by_contra hlt
      rw [← List.getElem_cons_drop L i (by omega)] at hdrop
      exact List.noConfusion hdrop
    show ScanInv nowMs L L.length acc
    match acc with
    | none =>
      intro j hj _
      exact hinv j hj (by omega)
    | some (k, st, m) =>
      obtain ⟨hki, hk, hget, hcand, hm, hmin, hfirst⟩ := hinv
      exact ⟨hk, hk, hget, hcand, hm, fun j hj _ hc => hmin j hj (by omega) hc, hfirst⟩
  | cons x xs ih =>
    intro i acc hdrop hinv
    have hi : i < L.length := by
      by_contra hge
      rw [List.drop_eq_nil_of_le (by omega)] at hdrop
      exact List.noConfusion hdrop
    have hx : L.get ⟨i, hi⟩ = x := by
      rw [← List.getElem_cons_drop L i hi] at hdrop
      exact (List.cons.inj hdrop).1
    have hxs : L.drop (i + 1) = xs := by
      rw [← List.getElem_cons_drop L i hi] at hdrop
      exact (List.cons.inj hdrop).2
    refine ih (i + 1) _ hxs ?_
    by_cases hc : isCandidate nowMs x
    · rw [if_pos hc]
      match acc with
      | none =>
        refine ⟨by omega, hi, hx, hc, rfl, ?_, ?_⟩
        · intro j hj hji hcj
          rcases Nat.lt_succ_iff_lt_or_eq.1 hji with hji | rfl
          · exact absurd hcj (hinv j hj hji)
          · have : L.get ⟨j, hj⟩ = x := hx
            rw [this]
        · intro j hj hji hcj
          exact absurd hcj (hinv j hj (by omega))
      | some (k0, st0, b) =>
        obtain ⟨hki, hk, hget, hcand, hm, hmin, hfirst⟩ := hinv
        dsimp only
        by_cases hlt : minutesRemaining nowMs x < b
        · rw [if_pos hlt]
          refine ⟨by omega, hi, hx, hc, rfl, ?_, ?_⟩
          · intro j hj hji hcj
            rcases Nat.lt_succ_iff_lt_or_eq.1 hji with hji | rfl
            · exact le_of_lt (lt_of_lt_of_le hlt (hmin j hj hji hcj))
            · have : L.get ⟨j, hj⟩ = x := hx
              rw [this]
          · intro j hj hji hcj
            exact lt_of_lt_of_le hlt (hmin j hj (by omega) hcj)
        · rw [if_neg hlt]
          refine ⟨by omega, hk, hget, hcand, hm, ?_, hfirst⟩
          intro j hj hji hcj
          rcases Nat.lt_succ_iff_lt_or_eq.1 hji with hji | rfl
          · exact hmin j hj hji hcj
          · have hgj : L.get ⟨j, hj⟩ = x := hx
            rw [hgj, hm]
            omega
    · rw [if_neg hc]
      match acc with
      | none =>
        intro j hj hji
        rcases Nat.lt_succ_iff_lt_or_eq.1 hji with hji | rfl
        · exact hinv j hj hji
        · have : L.get ⟨j, hj⟩ = x := hx
          rw [this]
          exact hc
      | some (k0, st0, b) =>
        obtain ⟨hki, hk, hget, hcand, hm, hmin, hfirst⟩ := hinv
        refine ⟨by omega, hk, hget, hcand, hm, ?_, hfirst⟩
        intro j hj hji hcj
        rcases Nat.lt_succ_iff_lt_or_eq.1 hji with hji | rfl
        · exact hmin j hj hji hcj
        · have : L.get ⟨j, hj⟩ = x := hx
          rw [this] at hcj
          exact absurd hcj hc

/-- Characterization of the resolver loop over a whole list, from the
empty accumulator. -/
theorem findCurrentStation_spec (nowMs : Int) (L : List TrackingLocation) :
    ScanInv nowMs L L.length (findCurrentStation nowMs L 0 none) := by
  refine findCurrentStation_inv nowMs L L 0 none rfl ?_
  intro j hj hj0
  omega


/-- Euclidean division bounds used to linearize the calendar pipeline. -/
theorem ediv_bounds (a c : Int) (hc : 0 < c) : c * (a / c) ≤ a ∧ a < c * (a / c) + c := by
  have h1 := Int.ediv_add_emod a c
  have h2 := Int.emod_nonneg a hc.ne'
  have h3 := Int.emod_lt_of_pos a hc
  constructor
  · linarith
  · linarith

/-- Year-of-era range in the civil pipeline. -/
theorem civil_yoe_range (doe q1 q2 q3 yoe : Int)
    (hd0 : 0 ≤ doe) (hd1 : doe < 146097)
    (hq1 : 1460 * q1 ≤ doe ∧ doe < 1460 * q1 + 1460)
    (hq2 : 36524 * q2 ≤ doe ∧ doe < 36524 * q2 + 36524)
    (hq3 : 146096 * q3 ≤ doe ∧ doe < 146096 * q3 + 146096)
    (hy : 365 * yoe ≤ doe - q1 + q2 - q3 ∧ doe - q1 + q2 - q3 < 365 * yoe + 365) :
    0 ≤ yoe ∧ yoe ≤ 400 := by omega

/-- Rough upper bound on the shifted month index of the civil pipeline. -/
theorem civil_mp_top (doe q1 q2 q3 yoe q4 q5 mp : Int)
    (hd0 : 0 ≤ doe) (hd1 : doe < 146097)
    (hq1 : 1460 * q1 ≤ doe ∧ doe < 1460 * q1 + 1460)
    (hq2 : 36524 * q2 ≤ doe ∧ doe < 36524 * q2 + 36524)
    (hq3 : 146096 * q3 ≤ doe ∧ doe < 146096 * q3 + 146096)
    (hy : 365 * yoe ≤ doe - q1 + q2 - q3 ∧ doe - q1 + q2 - q3 < 365 * yoe + 365)
    (hq4 : 4 * q4 ≤ yoe ∧ yoe < 4 * q4 + 4)
    (hq5 : 100 * q5 ≤ yoe ∧ yoe < 100 * q5 + 100)
    (hmp : 153 * mp ≤ 5 * (doe - (365 * yoe + q4 - q5)) + 2 ∧
      5 * (doe - (365 * yoe + q4 - q5)) + 2 < 153 * mp + 153) :
    mp ≤ 15 := by omega

/-- The quarter-century-day quotient `q6 = (153 * 9 + 2) / 5` of December. -/
theorem civil_q6_275 (q6 mp : Int) (hmp : mp = 9)
    (hb : 5 * q6 ≤ 153 * mp + 2 ∧ 153 * mp + 2 < 5 * q6 + 5) : q6 = 275 := by
  subst hmp; omega

/-- The month index of a day-of-year in late December. -/
theorem civil_mp_late_dec (mp dd : Int)
    (hb : 153 * mp ≤ 5 * dd + 2 ∧ 5 * dd + 2 < 153 * mp + 153)
    (h1 : 297 ≤ dd) (h2 : dd ≤ 301) : mp = 9 := by omega

/-- Range of the 36524-day quotient. -/
theorem civil_q2_range (doe q2 : Int)
    (hb : 36524 * q2 ≤ doe ∧ doe < 36524 * q2 + 36524)
    (h0 : 0 ≤ doe) (h1 : doe < 146097) : 0 ≤ q2 ∧ q2 ≤ 4 := by omega

/-- The 146096-day quotient vanishes away from the end of the era. -/
theorem civil_q3_zero (doe q3 : Int)
    (hb : 146096 * q3 ≤ doe ∧ doe < 146096 * q3 + 146096)
    (h0 : 0 ≤ doe) (htop : doe ≤ 146061) : q3 = 0 := by omega

/-- Day-of-era range of a late-December day. -/
theorem civil_doe_range (doe q1 q2 q3 yoe q4 q5 dd0 : Int)
    (hd1 : doe < 146097)
    (hy : 365 * yoe ≤ doe - q1 + q2 - q3 ∧ doe - q1 + q2 - q3 < 365 * yoe + 365)
    (hq1 : 1460 * q1 ≤ doe ∧ doe < 1460 * q1 + 1460)
    (hq2 : 36524 * q2 ≤ doe ∧ doe < 36524 * q2 + 36524)
    (hq3 : 146096 * q3 ≤ doe ∧ doe < 146096 * q3 + 146096)
    (hq4 : 4 * q4 ≤ yoe ∧ yoe < 4 * q4 + 4)
    (hq5 : 100 * q5 ≤ yoe ∧ yoe < 100 * q5 + 100)
    (hyr : 0 ≤ yoe ∧ yoe ≤ 400)
    (hdoy : doe - (365 * yoe + q4 - q5) = 274 + dd0)
    (h24 : 24 ≤ dd0) (h26 : dd0 ≤ 26) :
    270 ≤ doe ∧ doe ≤ 146060 ∧ yoe ≤ 399 := by omega

/-- On a late-December day the 1460-day quotient tracks the 4-year
quotient of the year-of-era. -/
theorem civil_q4_near_q1 (doe yoe q1 q4 q5 doy : Int)
    (hq1 : 1460 * q1 ≤ doe ∧ doe < 1460 * q1 + 1460)
    (hq4 : 4 * q4 ≤ yoe ∧ yoe < 4 * q4 + 4)
    (hq5 : 100 * q5 ≤ yoe ∧ yoe < 100 * q5 + 100)
    (hdoy : doe - (365 * yoe + q4 - q5) = doy)
    (hdoy1 : 297 ≤ doy) (hdoy2 : doy ≤ 301)
    (hy0 : 0 ≤ yoe) (hy1 : yoe ≤ 400) :
    q4 - 1 ≤ q1 ∧ q1 ≤ q4 + 1 := by omega

/-- The year-of-era remainder of a late-December day is far from the
boundary. -/
theorem civil_rem_range (doe q1 q2 q3 yoe q4 q5 doy : Int)
    (hq1b : q4 - 1 ≤ q1 ∧ q1 ≤ q4 + 1)
    (hq2 : 0 ≤ q2 ∧ q2 ≤ 4) (hq3 : 0 ≤ q3 ∧ q3 ≤ 1)
    (hq4 : 4 * q4 ≤ yoe ∧ yoe < 4 * q4 + 4)
    (hq5 : 100 * q5 ≤ yoe ∧ yoe < 100 * q5 + 100)
    (hy0 : 0 ≤ yoe) (hy1 : yoe ≤ 400)
    (hdoy : doe - (365 * yoe + q4 - q5) = doy)
    (hdoy1 : 297 ≤ doy) (hdoy2 : doy ≤ 301) :
    3 ≤ doe - q1 + q2 - q3 - 365 * yoe ∧ doe - q1 + q2 - q3 - 365 * yoe ≤ 360 := by omega

/-- Uniqueness of the year-of-era under a perturbation of at most three
days when its remainder is away from the boundary. -/
theorem civil_yoe_stable (a b y y2 : Int)
    (h1 : 365 * y ≤ a) (h2 : a < 365 * y + 365)
    (h3 : 365 * y2 ≤ b) (h4 : b < 365 * y2 + 365)
    (h5 : a - 3 ≤ b) (h6 : b ≤ a + 3)
    (h7 : 3 ≤ a - 365 * y) (h8 : a - 365 * y ≤ 360) : y2 = y := by omega

/-- The era and day-of-era of a one-day step away from mid-era. -/
theorem civil_era_step (z era doe era2 doe2 del : Int)
    (hed : z = 146097 * era + doe) (h0 : 0 ≤ doe) (h1 : doe < 146097)
    (hed2 : z + del = 146097 * era2 + doe2) (h02 : 0 ≤ doe2) (h12 : doe2 < 146097)
    (hdel : del = 1 ∨ del = -1) (hbot : 270 ≤ doe) (htop : doe ≤ 146060) :
    era2 = era ∧ doe2 = doe + del := by omega

/-- A one-day step moves the 1460-day quotient by at most one. -/
theorem civil_q1460_step (a a2 q q2 del : Int)
    (hb : 1460 * q ≤ a ∧ a < 1460 * q + 1460)
    (hb2 : 1460 * q2 ≤ a2 ∧ a2 < 1460 * q2 + 1460)
    (ha : a2 = a + del) (hdel : del = 1 ∨ del = -1) :
    q - 1 ≤ q2 ∧ q2 ≤ q + 1 := by omega

/-- A one-day step moves the 36524-day quotient by at most one. -/
theorem civil_q36524_step (a a2 q q2 del : Int)
    (hb : 36524 * q ≤ a ∧ a < 36524 * q + 36524)
    (hb2 : 36524 * q2 ≤ a2 ∧ a2 < 36524 * q2 + 36524)
    (ha : a2 = a + del) (hdel : del = 1 ∨ del = -1) :
    q - 1 ≤ q2 ∧ q2 ≤ q + 1 := by omega

/-- The leap corrections agree on equal years-of-era. -/
theorem civil_q45_stable (yoe yoe2 q4 q42 q5 q52 : Int)
    (hq4 : 4 * q4 ≤ yoe ∧ yoe < 4 * q4 + 4)
    (hq42 : 4 * q42 ≤ yoe2 ∧ yoe2 < 4 * q42 + 4)
    (hq5 : 100 * q5 ≤ yoe ∧ yoe < 100 * q5 + 100)
    (hq52 : 100 * q52 ≤ yoe2 ∧ yoe2 < 100 * q52 + 100)
    (heq : yoe2 = yoe) : q42 = q4 ∧ q52 = q5 := by omega


set_option maxHeartbeats 1000000 in
/-- Stepping one day forward or backward from a day 24, 25 or 26 of
month 12 moves the civil date by exactly that day, within month 12 of the
same year. -/
theorem civil_step (d y dd0 del : Int) (hdel : del = 1 ∨ del = -1)
    (h24 : 24 ≤ dd0) (h26 : dd0 ≤ 26)
    (hd : SantaTracker.civilFromDays d = (y, 12, dd0)) :
    SantaTracker.civilFromDays (d + del) = (y, 12, dd0 + del) := by
  simp only [SantaTracker.civilFromDays, Prod.mk.injEq] at hd ⊢
  obtain ⟨hy, hm, hdd⟩ := hd
  set z : Int := d + 719468 with hzdef
  set era : Int := (z) / 146097 with hera
  set doe : Int := (z) % 146097 with hdoe
  have hed : (z) = 146097 * era + doe := by
    rw [hera, hdoe]; exact (Int.ediv_add_emod (z) 146097).symm
  have hd0 : 0 ≤ doe := by
    rw [hdoe]; exact Int.emod_nonneg (z) (by norm_num)
  have hd1 : doe < 146097 := by
    rw [hdoe]; exact Int.emod_lt_of_pos (z) (by norm_num)
  clear hera hdoe
  set q1 : Int := doe / 1460 with hq1
  have hbq1 : 1460 * q1 ≤ doe ∧ doe < 1460 * q1 + 1460 := by
    rw [hq1]; exact SantaTracker.ediv_bounds doe 1460 (by norm_num)
  clear hq1
  set q2 : Int := doe / 36524 with hq2
  have hbq2 : 36524 * q2 ≤ doe ∧ doe < 36524 * q2 + 36524 := by
    rw [hq2]; exact SantaTracker.ediv_bounds doe 36524 (by norm_num)
  clear hq2
  set q3 : Int := doe / 146096 with hq3
  have hbq3 : 146096 * q3 ≤ doe ∧ doe < 146096 * q3 + 146096 := by
    rw [hq3]; exact SantaTracker.ediv_bounds doe 146096 (by norm_num)
  clear hq3
  set yoe : Int := (doe - q1 + q2 - q3) / 365 with hyoe
  have hbyoe : 365 * yoe ≤ (doe - q1 + q2 - q3) ∧ (doe - q1 + q2 - q3) < 365 * yoe + 365 := by
    rw [hyoe]; exact SantaTracker.ediv_bounds (doe - q1 + q2 - q3) 365 (by norm_num)
  clear hyoe
  set q4 : Int := yoe / 4 with hq4
  have hbq4 : 4 * q4 ≤ yoe ∧ yoe < 4 * q4 + 4 := by
    rw [hq4]; exact SantaTracker.ediv_bounds yoe 4 (by norm_num)
  clear hq4
  set q5 : Int := yoe / 100 with hq5
  have hbq5 : 100 * q5 ≤ yoe ∧ yoe < 100 * q5 + 100 := by
    rw [hq5]; exact SantaTracker.ediv_bounds yoe 100 (by norm_num)
  clear hq5
  set mp : Int := (5 * (doe - (365 * yoe + q4 - q5)) + 2) / 153 with hmp
  have hbmp : 153 * mp ≤ (5 * (doe - (365 * yoe + q4 - q5)) + 2) ∧ (5 * (doe - (365 * yoe + q4 - q5)) + 2) < 153 * mp + 153 := by
    rw [hmp]; exact SantaTracker.ediv_bounds (5 * (doe - (365 * yoe + q4 - q5)) + 2) 153 (by norm_num)
  clear hmp
  set q6 : Int := (153 * mp + 2) / 5 with hq6
  have hbq6 : 5 * q6 ≤ (153 * mp + 2) ∧ (153 * mp + 2) < 5 * q6 + 5 := by
    rw [hq6]; exact SantaTracker.ediv_bounds (153 * mp + 2) 5 (by norm_num)
  clear hq6
  have hdz : d + del + 719468 = z + del := by rw [hzdef]; ring
  rw [hdz]
  set era2 : Int := (z + del) / 146097 with hera2
  set doe2 : Int := (z + del) % 146097 with hdoe2
  have hed2 : (z + del) = 146097 * era2 + doe2 := by
    rw [hera2, hdoe2]; exact (Int.ediv_add_emod (z + del) 146097).symm
  have hd02 : 0 ≤ doe2 := by
    rw [hdoe2]; exact Int.emod_nonneg (z + del) (by norm_num)
  have hd12 : doe2 < 146097 := by
    rw [hdoe2]; exact Int.emod_lt_of_pos (z + del) (by norm_num)
  clear hera2 hdoe2
  set q12 : Int := doe2 / 1460 with hq12
  have hbq12 : 1460 * q12 ≤ doe2 ∧ doe2 < 1460 * q12 + 1460 := by
    rw [hq12]; exact SantaTracker.ediv_bounds doe2 1460 (by norm_num)
  clear hq12
  set q22 : Int := doe2 / 36524 with hq22
  have hbq22 : 36524 * q22 ≤ doe2 ∧ doe2 < 36524 * q22 + 36524 := by
    rw [hq22]; exact SantaTracker.ediv_bounds doe2 36524 (by norm_num)
  clear hq22
  set q32 : Int := doe2 / 146096 with hq32
  have hbq32 : 146096 * q32 ≤ doe2 ∧ doe2 < 146096 * q32 + 146096 := by
    rw [hq32]; exact SantaTracker.ediv_bounds doe2 146096 (by norm_num)
  clear hq32
  set yoe2 : Int := (doe2 - q12 + q22 - q32) / 365 with hyoe2
  have hbyoe2 : 365 * yoe2 ≤ (doe2 - q12 + q22 - q32) ∧ (doe2 - q12 + q22 - q32) < 365 * yoe2 + 365 := by
    rw [hyoe2]; exact SantaTracker.ediv_bounds (doe2 - q12 + q22 - q32) 365 (by norm_num)
  clear hyoe2
  set q42 : Int := yoe2 / 4 with hq42
  have hbq42 : 4 * q42 ≤ yoe2 ∧ yoe2 < 4 * q42 + 4 := by
    rw [hq42]; exact SantaTracker.ediv_bounds yoe2 4 (by norm_num)
  clear hq42
  set q52 : Int := yoe2 / 100 with hq52
  have hbq52 : 100 * q52 ≤ yoe2 ∧ yoe2 < 100 * q52 + 100 := by
    rw [hq52]; exact SantaTracker.ediv_bounds yoe2 100 (by norm_num)
  clear hq52
  set mp2 : Int := (5 * (doe2 - (365 * yoe2 + q42 - q52)) + 2) / 153 with hmp2
  have hbmp2 : 153 * mp2 ≤ (5 * (doe2 - (365 * yoe2 + q42 - q52)) + 2) ∧ (5 * (doe2 - (365 * yoe2 + q42 - q52)) + 2) < 153 * mp2 + 153 := by
    rw [hmp2]; exact SantaTracker.ediv_bounds (5 * (doe2 - (365 * yoe2 + q42 - q52)) + 2) 153 (by norm_num)
  clear hmp2
  set q62 : Int := (153 * mp2 + 2) / 5 with hq62
  have hbq62 : 5 * q62 ≤ (153 * mp2 + 2) ∧ (153 * mp2 + 2) < 5 * q62 + 5 := by
    rw [hq62]; exact SantaTracker.ediv_bounds (153 * mp2 + 2) 5 (by norm_num)
  clear hq62
  have hyr := SantaTracker.civil_yoe_range doe q1 q2 q3 yoe hd0 hd1 hbq1 hbq2 hbq3 hbyoe
  have hmptop := SantaTracker.civil_mp_top doe q1 q2 q3 yoe q4 q5 mp hd0 hd1 hbq1 hbq2 hbq3 hbyoe hbq4 hbq5 hbmp
  have hmp9 : mp = 9 := by split_ifs at hm <;> linarith
  have hq6v := SantaTracker.civil_q6_275 q6 mp hmp9 hbq6
  have hdoy : doe - (365 * yoe + q4 - q5) = 274 + dd0 := by linarith
  have hdoer := SantaTracker.civil_doe_range doe q1 q2 q3 yoe q4 q5 dd0 hd1 hbyoe hbq1 hbq2 hbq3 hbq4 hbq5 hyr hdoy h24 h26
  have hkey1 := SantaTracker.civil_era_step z era doe era2 doe2 del hed hd0 hd1 hed2 hd02 hd12 hdel hdoer.1 hdoer.2.1
  have hq1s := SantaTracker.civil_q1460_step doe doe2 q1 q12 del hbq1 hbq12 hkey1.2 hdel
  have hq2s := SantaTracker.civil_q36524_step doe doe2 q2 q22 del hbq2 hbq22 hkey1.2 hdel
  have hq2r := SantaTracker.civil_q2_range doe q2 hbq2 hd0 hd1
  have hq3z := SantaTracker.civil_q3_zero doe q3 hbq3 hd0 (by linarith [hdoer.2.1])
  have hq3z2 := SantaTracker.civil_q3_zero doe2 q32 hbq32 hd02 (by rcases hdel with rfl | rfl <;> linarith [hdoer.2.1, hkey1.2])
  have hq41 := SantaTracker.civil_q4_near_q1 doe yoe q1 q4 q5 (274 + dd0) hbq1 hbq4 hbq5 hdoy (by linarith) (by linarith) hyr.1 hyr.2
  have hrem := SantaTracker.civil_rem_range doe q1 q2 q3 yoe q4 q5 (274 + dd0) hq41 hq2r (by rw [hq3z]; norm_num) hbq4 hbq5 hyr.1 hyr.2 hdoy (by linarith) (by linarith)
  have hkey2 : yoe2 = yoe := by
    refine SantaTracker.civil_yoe_stable (doe - q1 + q2 - q3) (doe2 - q12 + q22 - q32) yoe yoe2
      hbyoe.1 hbyoe.2 hbyoe2.1 hbyoe2.2 ?_ ?_ hrem.1 hrem.2
    · rcases hdel with rfl | rfl <;> linarith [hq1s.1, hq1s.2, hq2s.1, hq2s.2, hkey1.2]
    · rcases hdel with rfl | rfl <;> linarith [hq1s.1, hq1s.2, hq2s.1, hq2s.2, hkey1.2]
  have hkey3 := SantaTracker.civil_q45_stable yoe yoe2 q4 q42 q5 q52 hbq4 hbq42 hbq5 hbq52 hkey2
  have hdoy2 : doe2 - (365 * yoe2 + q42 - q52) = 274 + dd0 + del := by
    rw [hkey2, hkey3.1, hkey3.2, hkey1.2]; linarith
  rw [hdoy2] at hbmp2
  have hmp2v := SantaTracker.civil_mp_late_dec mp2 (274 + dd0 + del) hbmp2
    (by rcases hdel with rfl | rfl <;> linarith) (by rcases hdel with rfl | rfl <;> linarith)
  have hq62v := SantaTracker.civil_q6_275 q62 mp2 hmp2v hbq62
  rw [hmp9] at hy
  norm_num at hy
  refine ⟨?_, ?_, ?_⟩
  · rw [hmp2v]
    norm_num
    rw [hkey2, hkey1.1]
    linarith
  · rw [hmp2v]
    norm_num
  · rw [hdoy2, hq62v]
    linarith


/-- The two days before and after a December 25 day number. -/
theorem civil_window (dX y : Int) (hd : civilFromDays dX = (y, 12, 25)) :
    civilFromDays (dX - 2) = (y, 12, 23) ∧ civilFromDays (dX - 1) = (y, 12, 24) ∧
    civilFromDays (dX + 1) = (y, 12, 26) ∧ civilFromDays (dX + 2) = (y, 12, 27) := by
  have h24 : civilFromDays (dX - 1) = (y, 12, 24) := by
    have h := civil_step dX y 25 (-1) (Or.inr rfl) (by norm_num) (by norm_num) hd
    norm_num at h
    exact h
  have h23 : civilFromDays (dX - 2) = (y, 12, 23) := by
    have h := civil_step (dX - 1) y 24 (-1) (Or.inr rfl) (by norm_num) (by norm_num) h24
    norm_num at h
    rw [show dX - 2 = dX - 1 + -1 from by ring]
    exact h
  have h26 : civilFromDays (dX + 1) = (y, 12, 26) := by
    have h := civil_step dX y 25 1 (Or.inl rfl) (by norm_num) (by norm_num) hd
    norm_num at h
    exact h
  have h27 : civilFromDays (dX + 2) = (y, 12, 27) := by
    have h := civil_step (dX + 1) y 26 1 (Or.inl rfl) (by norm_num) (by norm_num) h26
    norm_num at h
    rw [show dX + 2 = dX + 1 + 1 from by ring]
    exact h
  exact ⟨h23, h24, h26, h27⟩

/-- Within the five-day window around a December 25 day number, the
month-and-day tests of the resolver are interval tests on the time
value. -/
theorem dec_window_cases (dX y ms : Int) (hd : civilFromDays dX = (y, 12, 25))
    (hlo : (dX - 2) * 86400000 ≤ ms) (hhi : ms < (dX + 3) * 86400000) :
    ((getUTCMonth ms = 11 ∧ getUTCDate ms = 25) ↔
      (dX * 86400000 ≤ ms ∧ ms < (dX + 1) * 86400000)) ∧
    ((getUTCMonth ms = 11 ∧ getUTCDate ms < 25) ↔ ms < dX * 86400000) := by
  obtain ⟨h23, h24, h26, h27⟩ := civil_window dX y hd
  have hrange : ∀ k : Int, daysFromMs ms = k ↔ (k * 86400000 ≤ ms ∧ ms < (k + 1) * 86400000) := by
    intro k
    unfold daysFromMs
    omega
  have hcase : daysFromMs ms = dX - 2 ∨ daysFromMs ms = dX - 1 ∨ daysFromMs ms = dX ∨
      daysFromMs ms = dX + 1 ∨ daysFromMs ms = dX + 2 := by
    unfold daysFromMs
    omega
  unfold getUTCMonth getUTCDate
  rcases hcase with h | h | h | h | h <;>
    [(have hb := (hrange (dX - 2)).1 h; rw [h, h23]);
     (have hb := (hrange (dX - 1)).1 h; rw [h, h24]);
     (have hb := (hrange dX).1 h; rw [h, hd]);
     (have hb := (hrange (dX + 1)).1 h; rw [h, h26]);
     (have hb := (hrange (dX + 2)).1 h; rw [h, h27])] <;>
    dsimp only <;> omega

/-- A station whose offset numerator times 3600000 is divisible by its
denominator shifts the clock by the exact quotient. -/
theorem localTimeMs_eq_add (st : TrackingLocation) (c : Int)
    (hc : st.offset.num * (60 * 60 * 1000) = (st.offset.den : Int) * c) (t : Int) :
    localTimeMs t st = t + c := by
  unfold localTimeMs
  rw [hc, show t * (st.offset.den : Int) + (st.offset.den : Int) * c =
    (st.offset.den : Int) * (t + c) from by ring]
  exact Int.mul_tdiv_cancel_left _ (Int.natCast_ne_zero.2 st.offset.den_nz)

/-- The exact millisecond offset of a station of the table. -/
def stOffMs (st : TrackingLocation) : Int :=
  st.offset.num * (60 * 60 * 1000) / (st.offset.den : Int)

/-- Every station of the sorted table shifts the clock by exactly its
`stOffMs` (all table offsets are multiples of half an hour). -/
theorem localTimeMs_table (st : TrackingLocation) (hst : st ∈ sortedStationsList) (t : Int) :
    localTimeMs t st = t + stOffMs st := by
  refine localTimeMs_eq_add st (stOffMs st) ?_ t
  have hall : ∀ x ∈ sortedStationsList,
      x.offset.num * (60 * 60 * 1000) = (x.offset.den : Int) * stOffMs x := by decide
  exact hall st hst



/-- Value of the resolver in the active branch: some station is selected
by the loop and the first station's local date is not before the target
day. -/
theorem getSantaLocationWith_active (stations : List TrackingLocation)
    (f : TrackingLocation) (rest : List TrackingLocation) (t tz : Int)
    (k : Nat) (st : TrackingLocation) (m : Int)
    (hS : stationsByTimezone stations = f :: rest)
    (hpre : ¬ (getUTCMonth (localTimeMs t f) = 11 ∧ getUTCDate (localTimeMs t f) < 25))
    (hfound : findCurrentStation t (f :: rest) 0 none = some (k, st, m)) :
    getSantaLocationWith stations t tz = some {
      location := st,
      localTime := jsLocalTimeLabel (getUTCHours t) (getUTCMinutes t) st.offset,
      isChristmas := decide (getUTCDate (t + tz * 60000) = 25 ∧ getUTCMonth (t + tz * 60000) = 11),
      visitedLocations := NORTH_POLE_COORDS :: ((f :: rest).take (k + 1)).map (fun s => s.coordinates),
      plannedRoute := NORTH_POLE_COORDS :: (f :: rest).map (fun s => s.coordinates) ++ [NORTH_POLE_COORDS] } := by
  simp only [getSantaLocationWith, hS, hfound]
  rw [if_neg hpre]

/-- Value of the resolver in the pre-mission branch: the first (most
eastern) station's local date is still before the target day. -/
theorem getSantaLocationWith_pre (stations : List TrackingLocation)
    (f : TrackingLocation) (rest : List TrackingLocation) (t tz : Int)
    (hS : stationsByTimezone stations = f :: rest)
    (hpre : getUTCMonth (localTimeMs t f) = 11 ∧ getUTCDate (localTimeMs t f) < 25) :
    getSantaLocationWith stations t tz = some {
      location := northPoleStation,
      localTime := jsLocalTimeLabel (getUTCHours t) (getUTCMinutes t) northPoleStation.offset,
      isChristmas := decide (getUTCDate (t + tz * 60000) = 25 ∧ getUTCMonth (t + tz * 60000) = 11),
      visitedLocations := [NORTH_POLE_COORDS],
      plannedRoute := NORTH_POLE_COORDS :: (f :: rest).map (fun s => s.coordinates) ++ [NORTH_POLE_COORDS] } := by
  simp only [getSantaLocationWith, hS]
  rw [if_pos hpre]

/-- Value of the resolver in the post-mission branch: no station is on
the target day and the first station's local date is not before it. -/
theorem getSantaLocationWith_post (stations : List TrackingLocation)
    (f : TrackingLocation) (rest : List TrackingLocation) (t tz : Int)
    (hS : stationsByTimezone stations = f :: rest)
    (hpre : ¬ (getUTCMonth (localTimeMs t f) = 11 ∧ getUTCDate (localTimeMs t f) < 25))
    (hfound : findCurrentStation t (f :: rest) 0 none = none) :
    getSantaLocationWith stations t tz = some {
      location := northPoleStation,
      localTime := jsLocalTimeLabel (getUTCHours t) (getUTCMinutes t) northPoleStation.offset,
      isChristmas := decide (getUTCDate (t + tz * 60000) = 25 ∧ getUTCMonth (t + tz * 60000) = 11),
      visitedLocations := NORTH_POLE_COORDS :: (f :: rest).map (fun s => s.coordinates) ++ [NORTH_POLE_COORDS],
      plannedRoute := NORTH_POLE_COORDS :: (f :: rest).map (fun s => s.coordinates) ++ [NORTH_POLE_COORDS] } := by
  simp only [getSantaLocationWith, hS, hfound]
  rw [if_neg hpre]



/-- Bounds on the exact millisecond offsets of the table: every station
lies between UTC-11 and UTC+14. -/
theorem stOffMs_bounds (x : TrackingLocation) (hx : x ∈ sortedStationsList) :
    -39600000 ≤ stOffMs x ∧ stOffMs x ≤ 50400000 := by
  revert hx
  revert x
  decide

/-- If some station of the table is on local December 25, then no
station with a greater-or-equal offset can still be on a local date
before the 25th: its local day number is at most two days later, i.e.
December 25, 26 or 27 of the same year. -/
theorem candidate_not_prestart (t : Int) (st f : TrackingLocation)
    (hst : st ∈ sortedStationsList) (hf : f ∈ sortedStationsList)
    (hc : isCandidate t st) (hge : stOffMs st ≤ stOffMs f) :
    ¬ (getUTCMonth (localTimeMs t f) = 11 ∧ getUTCDate (localTimeMs t f) < 25) := by
  unfold isCandidate at hc
  rw [localTimeMs_table st hst] at hc
  rw [localTimeMs_table f hf]
  obtain ⟨hsb1, hsb2⟩ := stOffMs_bounds st hst
  obtain ⟨hfb1, hfb2⟩ := stOffMs_bounds f hf
  obtain ⟨hmon, hdate⟩ := hc
  set d := daysFromMs (t + stOffMs st) with hd
  have hciv : civilFromDays d = ((civilFromDays d).1, 12, 25) := by
    unfold getUTCMonth at hmon
    unfold getUTCDate at hdate
    rw [← hd] at hmon hdate
    have h2 : (civilFromDays d).2 = (12, 25) := by
      have he : (civilFromDays d).2 = ((civilFromDays d).2.1, (civilFromDays d).2.2) := rfl
      rw [he, Prod.mk.injEq]
      exact ⟨by omega, hdate⟩
    calc civilFromDays d = ((civilFromDays d).1, (civilFromDays d).2) := rfl
      _ = ((civilFromDays d).1, 12, 25) := by rw [h2]
  have hdb : d * 86400000 ≤ t + stOffMs st ∧ t + stOffMs st < (d + 1) * 86400000 := by
    rw [hd]
    unfold daysFromMs
    omega
  have hwin : (d - 2) * 86400000 ≤ t + stOffMs f ∧ t + stOffMs f < (d + 3) * 86400000 := by
    constructor
    · linarith [hdb.1]
    · linarith [hdb.2]
  have hiff := (dec_window_cases d (civilFromDays d).1 (t + stOffMs f) hciv hwin.1 hwin.2).2
  intro hcon
  have := hiff.1 hcon
  linarith [hdb.1]

end SantaTracker

namespace SantaTracker

/-- The most eastern entry of the table (UTC+14): the head of the
east-to-west enumeration. -/
def kiritimatiStation : TrackingLocation :=
  { name := "KIRITIMATI", offset := 14, region := "PACIFIC",
    coordinates := (Rat.mk' 18709 10000, Rat.mk' (-787007) 5000) }

/-- The selection property claimed of the resolver: the loop returns the
first index (in east-to-west order) attaining the strictly smallest
`minutesUntilMidnight` among the stations on local December 25, and the
resolved state's current location is exactly that station. -/
def FirstMinimumSelected (t tz : Int) : Prop :=
  ∃ k st m,
    findCurrentStation t sortedStationsList 0 none = some (k, st, m) ∧
    (getSantaLocation t tz).map ResolvedState.location = some st ∧
    ∃ hk : k < sortedStationsList.length,
      sortedStationsList.get ⟨k, hk⟩ = st ∧ isCandidate t st ∧
      m = minutesRemaining t st ∧
      (∀ j (hj : j < sortedStationsList.length),
        isCandidate t (sortedStationsList.get ⟨j, hj⟩) →
          m ≤ minutesRemaining t (sortedStationsList.get ⟨j, hj⟩)) ∧
      (∀ j (hj : j < sortedStationsList.length), j < k →
        isCandidate t (sortedStationsList.get ⟨j, hj⟩) →
          m < minutesRemaining t (sortedStationsList.get ⟨j, hj⟩))

end SantaTracker

/-- C1: for every timestamp at which at least one station of the table is
on local December 25 (and every observer timezone), the resolver's
station list is the offset-descending (east-to-west, stable) enumeration
of the table, and the selected current station is the one with the
strictly smallest minutes-until-local-midnight-plus-one value among the
stations on the target day, ties resolved to the first (most eastern)
occurrence. -/
theorem current_station_selection (t tz : Int)
    (hex : ∃ st ∈ SantaTracker.sortedStationsList, SantaTracker.isCandidate t st) :
    List.Pairwise (fun a b => b.offset ≤ a.offset) SantaTracker.sortedStationsList ∧
    SantaTracker.sortedStations = SantaTracker.sortedStationsList ∧
    SantaTracker.FirstMinimumSelected t tz := by
  refine ⟨by decide, SantaTracker.sortedStations_eq, ?_⟩
  have hne : SantaTracker.sortedStationsList ≠ [] := by decide
  have hspec := SantaTracker.findCurrentStation_spec t SantaTracker.sortedStationsList
  rcases hres : SantaTracker.findCurrentStation t SantaTracker.sortedStationsList 0 none with
    _ | ⟨k, st, m⟩
  · exfalso
    rw [hres] at hspec
    obtain ⟨st0, hst0, hc0⟩ := hex
    obtain ⟨n, hget⟩ := List.mem_iff_get.1 hst0
    exact hspec n.1 n.2 n.2 (by rw [hget]; exact hc0)
  · rw [hres] at hspec
    obtain ⟨hki, hk, hget, hcand, hm, hmin, hfirst⟩ := hspec
    refine ⟨k, st, m, hres, ?_, hk, hget, hcand, hm,
      fun j hj hcj => hmin j hj hj hcj, fun j hj hjk hcj => hfirst j hj hjk hcj⟩
    have hhead : SantaTracker.sortedStationsList.head hne = SantaTracker.kiritimatiStation := rfl
    have hcons : SantaTracker.kiritimatiStation :: SantaTracker.sortedStationsList.tail =
        SantaTracker.sortedStationsList := by
      rw [← hhead]
      exact List.head_cons_tail _ hne
    have hS : SantaTracker.stationsByTimezone SantaTracker.TRACKING_STATIONS =
        SantaTracker.kiritimatiStation :: SantaTracker.sortedStationsList.tail := by
      rw [SantaTracker.stationsByTimezone_TRACKING, hcons]
    have hfmem : SantaTracker.kiritimatiStation ∈ SantaTracker.sortedStationsList := by decide
    obtain ⟨st0, hst0, hc0⟩ := hex
    have hmax : ∀ x ∈ SantaTracker.sortedStationsList,
        SantaTracker.stOffMs x ≤ SantaTracker.stOffMs SantaTracker.kiritimatiStation := by
      decide
    have hpre := SantaTracker.candidate_not_prestart t st0 _ hst0 hfmem hc0 (hmax st0 hst0)
    have hact := SantaTracker.getSantaLocationWith_active SantaTracker.TRACKING_STATIONS _ _ t tz
      k st m hS hpre (by rw [hcons]; exact hres)
    unfold SantaTracker.getSantaLocation
    rw [hact]
    rfl

/-- Witness for C1 at 2025-12-25 00:00:00 UTC (KIRITIMATI, UTC+14, is on
local December 25, 14:00). -/
theorem current_station_selection_witness :
    (∃ st ∈ SantaTracker.sortedStationsList, SantaTracker.isCandidate 1766620800000 st) ∧
    (List.Pairwise (fun a b => b.offset ≤ a.offset) SantaTracker.sortedStationsList ∧
     SantaTracker.sortedStations = SantaTracker.sortedStationsList ∧
     SantaTracker.FirstMinimumSelected 1766620800000 0) :=
  ⟨by decide, current_station_selection 1766620800000 0 (by decide)⟩

namespace SantaTracker

/-- A station on local December 25 pins the civil date of its local day
number: month 12, day 25 (of the year the pipeline computes). -/
theorem candidate_civil (t : Int) (st : TrackingLocation) (hst : st ∈ sortedStationsList)
    (hc : isCandidate t st) :
    civilFromDays (daysFromMs (t + stOffMs st)) =
      ((civilFromDays (daysFromMs (t + stOffMs st))).1, 12, 25) := by
  unfold isCandidate at hc
  rw [localTimeMs_table st hst] at hc
  obtain ⟨hmon, hdate⟩ := hc
  unfold getUTCMonth at hmon
  unfold getUTCDate at hdate
  set d := daysFromMs (t + stOffMs st)
  calc civilFromDays d = ((civilFromDays d).1, (civilFromDays d).2.1, (civilFromDays d).2.2) := rfl
    _ = ((civilFromDays d).1, 12, 25) := by
        rw [show (civilFromDays d).2.1 = 12 from by omega, hdate]

/-- Two stations of the table on local December 25 at the same instant
are on the same local day number (the offsets span less than 48 hours,
and the neighbouring days are December 24 and 26). -/
theorem candidates_same_day_le (t : Int) (a b : TrackingLocation)
    (ha : a ∈ sortedStationsList) (hb : b ∈ sortedStationsList)
    (hca : isCandidate t a) (hcb : isCandidate t b)
    (hle : stOffMs a ≤ stOffMs b) :
    daysFromMs (t + stOffMs a) = daysFromMs (t + stOffMs b) := by
  obtain ⟨hab1, hab2⟩ := stOffMs_bounds a ha
  obtain ⟨hbb1, hbb2⟩ := stOffMs_bounds b hb
  have hciva := candidate_civil t a ha hca
  have hcivb := candidate_civil t b hb hcb
  set da := daysFromMs (t + stOffMs a) with hda
  set db := daysFromMs (t + stOffMs b) with hdb
  have hdr : da ≤ db ∧ db ≤ da + 2 := by
    rw [hda, hdb]
    unfold daysFromMs
    omega
  obtain ⟨h26, h27⟩ := (civil_window da (civilFromDays da).1 hciva).2.2
  rcases (by omega : db = da ∨ db = da + 1 ∨ db = da + 2) with h | h | h
  · omega
  · exfalso
    rw [h, h26] at hcivb
    have h2225 := congrArg (fun p : Int × Int × Int => p.2.2) hcivb
    simp only at h2225
    exact absurd h2225 (by norm_num)
  · exfalso
    rw [h, h27] at hcivb
    have h2225 := congrArg (fun p : Int × Int × Int => p.2.2) hcivb
    simp only at h2225
    exact absurd h2225 (by norm_num)

/-- `minutesUntilMidnight` of a table station, as an affine function of
the millisecond of its local day: `1441 - (local msOfDay) / 60000`. -/
theorem minutesRemaining_formula (t : Int) (st : TrackingLocation)
    (hst : st ∈ sortedStationsList) :
    minutesRemaining t st =
      1441 - (t + stOffMs st - daysFromMs (t + stOffMs st) * 86400000) / 60000 := by
  unfold minutesRemaining
  rw [localTimeMs_table st hst]
  unfold getUTCHours getUTCMinutes msOfDay daysFromMs
  set u := t + stOffMs st
  have h1 : u - u / 86400000 * 86400000 = u % 86400000 := by omega
  rw [h1]
  omega

/-- Among stations on local December 25, a more eastern station (larger
offset) has at most the minutes remaining of a more western one. -/
theorem minutesRemaining_mono (t : Int) (a b : TrackingLocation)
    (ha : a ∈ sortedStationsList) (hb : b ∈ sortedStationsList)
    (hca : isCandidate t a) (hcb : isCandidate t b)
    (hle : stOffMs b ≤ stOffMs a) :
    minutesRemaining t a ≤ minutesRemaining t b := by
  have hd := candidates_same_day_le t b a hb ha hcb hca hle
  rw [minutesRemaining_formula t a ha, minutesRemaining_formula t b hb, ← hd]
  have hdiv : (t + stOffMs b - daysFromMs (t + stOffMs b) * 86400000) / 60000 ≤
      (t + stOffMs a - daysFromMs (t + stOffMs b) * 86400000) / 60000 :=
    Int.ediv_le_ediv (by norm_num) (by omega)
  omega

/-- The station index returned by the resolver loop is the least index
whose station is on local December 25: no earlier (more eastern) station
is a candidate. -/
theorem selected_is_least (t : Int) (k : Nat) (st : TrackingLocation) (m : Int)
    (hres : findCurrentStation t sortedStationsList 0 none = some (k, st, m)) :
    ∀ j (hj : j < sortedStationsList.length), j < k →
      ¬ isCandidate t (sortedStationsList.get ⟨j, hj⟩) := by
  have hspec := findCurrentStation_spec t sortedStationsList
  rw [hres] at hspec
  obtain ⟨hki, hk, hget, hcand, hm, hmin, hfirst⟩ := hspec
  intro j hj hjk hcj
  have hpw : List.Pairwise (fun a b : TrackingLocation => stOffMs b ≤ stOffMs a)
      sortedStationsList := by decide
  have hle : stOffMs (sortedStationsList.get ⟨k, hk⟩) ≤
      stOffMs (sortedStationsList.get ⟨j, hj⟩) :=
    List.pairwise_iff_get.1 hpw ⟨j, hj⟩ ⟨k, hk⟩ hjk
  have hmemj : sortedStationsList.get ⟨j, hj⟩ ∈ sortedStationsList :=
    List.mem_iff_get.2 ⟨⟨j, hj⟩, rfl⟩
  have hmemk : sortedStationsList.get ⟨k, hk⟩ ∈ sortedStationsList :=
    List.mem_iff_get.2 ⟨⟨k, hk⟩, rfl⟩
  have hck : isCandidate t (sortedStationsList.get ⟨k, hk⟩) := by rw [hget]; exact hcand
  have hmono := minutesRemaining_mono t (sortedStationsList.get ⟨j, hj⟩)
    (sortedStationsList.get ⟨k, hk⟩) hmemj hmemk hcj hck hle
  have hstrict := hfirst j hj hjk hcj
  rw [hget] at hmono
  omega

end SantaTracker

namespace SantaTracker

/-- Within the mission-cycle window around December 25 of day number
`dX`, a table station is on local December 25 exactly on a half-open
interval of timestamps determined by its offset. -/
theorem isCandidate_iff (dX y t : Int) (hd : civilFromDays dX = (y, 12, 25))
    (st : TrackingLocation) (hst : st ∈ sortedStationsList)
    (hlo : dX * 86400000 - 86400000 ≤ t)
    (hhi : t ≤ dX * 86400000 + 86400000 + 39600000) :
    isCandidate t st ↔
      (dX * 86400000 - stOffMs st ≤ t ∧ t < (dX + 1) * 86400000 - stOffMs st) := by
  obtain ⟨hb1, hb2⟩ := stOffMs_bounds st hst
  unfold isCandidate
  rw [localTimeMs_table st hst]
  have h := (dec_window_cases dX y (t + stOffMs st) hd (by omega) (by omega)).1
  rw [h]
  omega

/-- Within the mission-cycle window, a table station's local date is
still before December 25 exactly before the start of its interval. -/
theorem prestart_iff (dX y t : Int) (hd : civilFromDays dX = (y, 12, 25))
    (st : TrackingLocation) (hst : st ∈ sortedStationsList)
    (hlo : dX * 86400000 - 86400000 ≤ t)
    (hhi : t ≤ dX * 86400000 + 86400000 + 39600000) :
    ((getUTCMonth (localTimeMs t st) = 11 ∧ getUTCDate (localTimeMs t st) < 25) ↔
      t < dX * 86400000 - stOffMs st) := by
  obtain ⟨hb1, hb2⟩ := stOffMs_bounds st hst
  rw [localTimeMs_table st hst]
  have h := (dec_window_cases dX y (t + stOffMs st) hd (by omega) (by omega)).2
  rw [h]
  omega

/-- Coverage: between the instant the most eastern station reaches local
December 25 and the instant the most western one leaves it, some station
of the table is on the target day (consecutive offsets of the table
differ by at most two hours, far less than a day). -/
theorem candidate_exists (dX y t : Int) (hd : civilFromDays dX = (y, 12, 25))
    (hlo : dX * 86400000 - 86400000 ≤ t)
    (hge : dX * 86400000 - 50400000 ≤ t)
    (hhi : t < dX * 86400000 + 86400000 + 39600000) :
    ∃ j, ∃ hj : j < sortedStationsList.length,
      isCandidate t (sortedStationsList.get ⟨j, hj⟩) := by
  have hhi' : t ≤ dX * 86400000 + 86400000 + 39600000 := le_of_lt hhi
  haveI hPdec : DecidablePred (fun j : Nat => j < sortedStationsList.length ∧
      t < (dX + 1) * 86400000 - stOffMs (sortedStationsList.getD j northPoleStation)) :=
    fun j => And.decidable
  have hPex : ∃ j : Nat, j < sortedStationsList.length ∧
      t < (dX + 1) * 86400000 - stOffMs (sortedStationsList.getD j northPoleStation) := by
    refine ⟨28, by decide, ?_⟩
    have h28 : stOffMs (sortedStationsList.getD 28 northPoleStation) = -39600000 := by decide
    omega
  obtain ⟨hjlen, hjub⟩ := Nat.find_spec hPex
  rcases hj0 : Nat.find hPex with _ | jp
  · rw [hj0] at hjlen hjub
    refine ⟨0, hjlen, ?_⟩
    rw [isCandidate_iff dX y t hd _ (List.mem_iff_get.2 ⟨⟨0, hjlen⟩, rfl⟩) hlo hhi']
    rw [List.getD_eq_get _ _ hjlen] at hjub
    have h0 : stOffMs (sortedStationsList.get ⟨0, hjlen⟩) = 50400000 := by
      rw [show sortedStationsList.get ⟨0, hjlen⟩ = kiritimatiStation from rfl]
      decide
    omega
  · rw [hj0] at hjlen hjub
    have hjplen : jp < sortedStationsList.length := by omega
    have hnP := Nat.find_min hPex (by omega : jp < Nat.find hPex)
    have hub : (dX + 1) * 86400000 - stOffMs (sortedStationsList.getD jp northPoleStation) ≤ t :=
      not_lt.1 (fun hcon => hnP ⟨hjplen, hcon⟩)
    have hchain : List.Chain' (fun a b : TrackingLocation =>
        stOffMs a - stOffMs b ≤ 86400000) sortedStationsList := by
      simp only [sortedStationsList, List.chain'_cons, List.chain'_singleton, and_true]
      refine ⟨?_, ?_, ?_, ?_, ?_, ?_, ?_, ?_, ?_, ?_, ?_, ?_, ?_, ?_, ?_, ?_, ?_, ?_, ?_,
        ?_, ?_, ?_, ?_, ?_, ?_, ?_, ?_, ?_⟩ <;> decide
    have hgap : stOffMs (sortedStationsList.get ⟨jp, hjplen⟩) -
        stOffMs (sortedStationsList.get ⟨jp + 1, hjlen⟩) ≤ 86400000 :=
      List.chain'_iff_get.1 hchain jp (by omega)
    refine ⟨jp + 1, hjlen, ?_⟩
    rw [isCandidate_iff dX y t hd _ (List.mem_iff_get.2 ⟨⟨jp + 1, hjlen⟩, rfl⟩) hlo hhi']
    rw [List.getD_eq_get _ _ hjlen] at hjub
    rw [List.getD_eq_get _ _ hjplen] at hub
    omega

/-- After the most western station has left local December 25, the
resolver loop selects no station. -/
theorem no_candidate_post (dX y t : Int) (hd : civilFromDays dX = (y, 12, 25))
    (hlo : dX * 86400000 - 86400000 ≤ t)
    (hge : dX * 86400000 + 86400000 + 39600000 ≤ t)
    (hhi : t ≤ dX * 86400000 + 86400000 + 39600000) :
    findCurrentStation t sortedStationsList 0 none = none := by
  rcases hres : findCurrentStation t sortedStationsList 0 none with _ | ⟨k, st, m⟩
  · rfl
  · exfalso
    have hspec := findCurrentStation_spec t sortedStationsList
    rw [hres] at hspec
    obtain ⟨hki, hk, hget, hcand, hm, hmin, hfirst⟩ := hspec
    have hmem : sortedStationsList.get ⟨k, hk⟩ ∈ sortedStationsList :=
      List.mem_iff_get.2 ⟨⟨k, hk⟩, rfl⟩
    have hck : isCandidate t (sortedStationsList.get ⟨k, hk⟩) := by rw [hget]; exact hcand
    have hw := (isCandidate_iff dX y t hd _ hmem hlo hhi).1 hck
    obtain ⟨hb1, hb2⟩ := stOffMs_bounds _ hmem
    omega

/-- Value of `visitedLocations` whenever the loop selects a station:
home base followed by the coordinates of stations `0..k` of the
east-to-west list. -/
theorem visited_active (t tz : Int) (k : Nat) (st : TrackingLocation) (m : Int)
    (hres : findCurrentStation t sortedStationsList 0 none = some (k, st, m)) :
    (getSantaLocation t tz).map ResolvedState.visitedLocations =
      some (NORTH_POLE_COORDS ::
        (sortedStationsList.take (k + 1)).map (fun s => s.coordinates)) := by
  have hspec := findCurrentStation_spec t sortedStationsList
  rw [hres] at hspec
  obtain ⟨hki, hk, hget, hcand, hm, hmin, hfirst⟩ := hspec
  have hne : sortedStationsList ≠ [] := by decide
  have hhead : sortedStationsList.head hne = kiritimatiStation := rfl
  have hcons : kiritimatiStation :: sortedStationsList.tail = sortedStationsList := by
    rw [← hhead]
    exact List.head_cons_tail _ hne
  have hS : stationsByTimezone TRACKING_STATIONS =
      kiritimatiStation :: sortedStationsList.tail := by
    rw [stationsByTimezone_TRACKING, hcons]
  have hfmem : kiritimatiStation ∈ sortedStationsList := by decide
  have hmax : ∀ x ∈ sortedStationsList, stOffMs x ≤ stOffMs kiritimatiStation := by decide
  have hstmem : st ∈ sortedStationsList := by
    rw [← hget]
    exact List.mem_iff_get.2 ⟨⟨k, hk⟩, rfl⟩
  have hpre := candidate_not_prestart t st kiritimatiStation hstmem hfmem hcand (hmax st hstmem)
  have hact := getSantaLocationWith_active TRACKING_STATIONS _ _ t tz k st m hS hpre
    (by rw [hcons]; exact hres)
  unfold getSantaLocation
  rw [hact, hcons]
  rfl

/-- Value of `visitedLocations` in the pre-mission phase: only the home
base. -/
theorem visited_pre (dX y t tz : Int) (hd : civilFromDays dX = (y, 12, 25))
    (hlo : dX * 86400000 - 86400000 ≤ t)
    (hhi : t ≤ dX * 86400000 + 86400000 + 39600000)
    (hp : t < dX * 86400000 - 50400000) :
    (getSantaLocation t tz).map ResolvedState.visitedLocations =
      some [NORTH_POLE_COORDS] := by
  have hne : sortedStationsList ≠ [] := by decide
  have hhead : sortedStationsList.head hne = kiritimatiStation := rfl
  have hcons : kiritimatiStation :: sortedStationsList.tail = sortedStationsList := by
    rw [← hhead]
    exact List.head_cons_tail _ hne
  have hS : stationsByTimezone TRACKING_STATIONS =
      kiritimatiStation :: sortedStationsList.tail := by
    rw [stationsByTimezone_TRACKING, hcons]
  have hfmem : kiritimatiStation ∈ sortedStationsList := by decide
  have hkoff : stOffMs kiritimatiStation = 50400000 := by decide
  have hpre : getUTCMonth (localTimeMs t kiritimatiStation) = 11 ∧
      getUTCDate (localTimeMs t kiritimatiStation) < 25 :=
    (prestart_iff dX y t hd kiritimatiStation hfmem hlo hhi).2 (by omega)
  have h := getSantaLocationWith_pre TRACKING_STATIONS _ _ t tz hS hpre
  unfold getSantaLocation
  rw [h]
  rfl

/-- Value of `visitedLocations` in the post-mission phase: the full
closed loop. -/
theorem visited_post (dX y t tz : Int) (hd : civilFromDays dX = (y, 12, 25))
    (hlo : dX * 86400000 - 86400000 ≤ t)
    (hge : dX * 86400000 - 50400000 ≤ t)
    (hhi : t ≤ dX * 86400000 + 86400000 + 39600000)
    (hres : findCurrentStation t sortedStationsList 0 none = none) :
    (getSantaLocation t tz).map ResolvedState.visitedLocations =
      some (NORTH_POLE_COORDS ::
        sortedStationsList.map (fun s => s.coordinates) ++ [NORTH_POLE_COORDS]) := by
  have hne : sortedStationsList ≠ [] := by decide
  have hhead : sortedStationsList.head hne = kiritimatiStation := rfl
  have hcons : kiritimatiStation :: sortedStationsList.tail = sortedStationsList := by
    rw [← hhead]
    exact List.head_cons_tail _ hne
  have hS : stationsByTimezone TRACKING_STATIONS =
      kiritimatiStation :: sortedStationsList.tail := by
    rw [stationsByTimezone_TRACKING, hcons]
  have hfmem : kiritimatiStation ∈ sortedStationsList := by decide
  have hkoff : stOffMs kiritimatiStation = 50400000 := by decide
  have hnpre : ¬ (getUTCMonth (localTimeMs t kiritimatiStation) = 11 ∧
      getUTCDate (localTimeMs t kiritimatiStation) < 25) := fun hcon =>
    absurd ((prestart_iff dX y t hd kiritimatiStation hfmem hlo hhi).1 hcon) (by omega)
  have h := getSantaLocationWith_post TRACKING_STATIONS _ _ t tz hS hnpre
    (by rw [hcons]; exact hres)
  unfold getSantaLocation
  rw [h, hcons]
  rfl

end SantaTracker

namespace SantaTracker

/-- Classification of `visitedLocations.length` over one mission cycle:
1 in the pre-mission phase, `k + 2` (`k` the selected index) in the
active phase, 31 at the post-mission wrap. -/
theorem visited_length_phases (dX y t tz : Int) (hd : civilFromDays dX = (y, 12, 25))
    (hlo : dX * 86400000 - 86400000 ≤ t)
    (hhi : t ≤ dX * 86400000 + 86400000 + 39600000) :
    ∃ n, (getSantaLocation t tz).map (fun r => r.visitedLocations.length) = some n ∧
      ((t < dX * 86400000 - 50400000 ∧ n = 1) ∨
       (∃ k st m, findCurrentStation t sortedStationsList 0 none = some (k, st, m) ∧
          dX * 86400000 - 50400000 ≤ t ∧ n = k + 2 ∧ k + 2 ≤ 30) ∨
       (dX * 86400000 + 86400000 + 39600000 ≤ t ∧ n = 31)) := by
  by_cases hp : t < dX * 86400000 - 50400000
  · have hv := visited_pre dX y t tz hd hlo hhi hp
    obtain ⟨r, hr, hrv⟩ := Option.map_eq_some'.1 hv
    refine ⟨1, ?_, Or.inl ⟨hp, rfl⟩⟩
    rw [hr, Option.map_some', hrv]
    rfl
  · push_neg at hp
    rcases hres : findCurrentStation t sortedStationsList 0 none with _ | ⟨k, st, m⟩
    · have hwrap : dX * 86400000 + 86400000 + 39600000 ≤ t := by
        by_contra hlt
        push_neg at hlt
        obtain ⟨j, hj, hcj⟩ := candidate_exists dX y t hd hlo hp hlt
        have hspec := findCurrentStation_spec t sortedStationsList
        rw [hres] at hspec
        exact hspec j hj hj hcj
      have hv := visited_post dX y t tz hd hlo hp hhi hres
      obtain ⟨r, hr, hrv⟩ := Option.map_eq_some'.1 hv
      refine ⟨31, ?_, Or.inr (Or.inr ⟨hwrap, rfl⟩)⟩
      rw [hr, Option.map_some', hrv]
      rw [show (NORTH_POLE_COORDS ::
        sortedStationsList.map (fun s => s.coordinates) ++ [NORTH_POLE_COORDS]).length = 31
        from by decide]
    · have hspec := findCurrentStation_spec t sortedStationsList
      rw [hres] at hspec
      obtain ⟨hki, hk, hget, hcand, hm, hmin, hfirst⟩ := hspec
      have hklen : k < 29 := by
        have : sortedStationsList.length = 29 := by decide
        omega
      have hv := visited_active t tz k st m hres
      obtain ⟨r, hr, hrv⟩ := Option.map_eq_some'.1 hv
      refine ⟨k + 2, ?_, Or.inr (Or.inl ⟨k, st, m, rfl, hp, rfl, by omega⟩)⟩
      rw [hr, Option.map_some', hrv]
      have hlen : (sortedStationsList.take (k + 1)).length = k + 1 := by
        rw [List.length_take]
        have : sortedStationsList.length = 29 := by decide
        omega
      simp only [List.length_cons, List.length_map, hlen]

/-- As the clock advances inside the active phase, the selected station
index moves westward (never back east). -/
theorem selected_index_mono (dX y t1 t2 : Int) (hd : civilFromDays dX = (y, 12, 25))
    (hlo : dX * 86400000 - 86400000 ≤ t1) (h12 : t1 ≤ t2)
    (hhi : t2 ≤ dX * 86400000 + 86400000 + 39600000)
    (k1 k2 : Nat) (st1 st2 : TrackingLocation) (m1 m2 : Int)
    (h1 : findCurrentStation t1 sortedStationsList 0 none = some (k1, st1, m1))
    (h2 : findCurrentStation t2 sortedStationsList 0 none = some (k2, st2, m2)) :
    k1 ≤ k2 := by
  by_contra hgt
  push_neg at hgt
  have hspec2 := findCurrentStation_spec t2 sortedStationsList
  rw [h2] at hspec2
  obtain ⟨_, hk2, hget2, hcand2, _, _, _⟩ := hspec2
  have hspec1 := findCurrentStation_spec t1 sortedStationsList
  rw [h1] at hspec1
  obtain ⟨_, hk1, hget1, hcand1, _, _, _⟩ := hspec1
  have hmem2 : sortedStationsList.get ⟨k2, hk2⟩ ∈ sortedStationsList :=
    List.mem_iff_get.2 ⟨⟨k2, hk2⟩, rfl⟩
  have hmem1 : sortedStationsList.get ⟨k1, hk1⟩ ∈ sortedStationsList :=
    List.mem_iff_get.2 ⟨⟨k1, hk1⟩, rfl⟩
  have hc2 : isCandidate t2 (sortedStationsList.get ⟨k2, hk2⟩) := by rw [hget2]; exact hcand2
  have hc1 : isCandidate t1 (sortedStationsList.get ⟨k1, hk1⟩) := by rw [hget1]; exact hcand1
  have hw2 := (isCandidate_iff dX y t2 hd _ hmem2 (by omega) hhi).1 hc2
  have hw1 := (isCandidate_iff dX y t1 hd _ hmem1 hlo (by omega)).1 hc1
  have hpw : List.Pairwise (fun a b : TrackingLocation => stOffMs b ≤ stOffMs a)
      sortedStationsList := by decide
  have hle : stOffMs (sortedStationsList.get ⟨k1, hk1⟩) ≤
      stOffMs (sortedStationsList.get ⟨k2, hk2⟩) :=
    List.pairwise_iff_get.1 hpw ⟨k2, hk2⟩ ⟨k1, hk1⟩ hgt
  have hcc : isCandidate t1 (sortedStationsList.get ⟨k2, hk2⟩) :=
    (isCandidate_iff dX y t1 hd _ hmem2 hlo (by omega)).2 ⟨by omega, by omega⟩
  exact selected_is_least t1 k1 st1 m1 h1 k2 hk2 hgt hcc

/-- The non-decreasing length statement of the claim, for one pair of
timestamps. -/
def VisitedLengthMono (t1 t2 tz : Int) : Prop :=
  ∃ n1 n2,
    (getSantaLocation t1 tz).map (fun r => r.visitedLocations.length) = some n1 ∧
    (getSantaLocation t2 tz).map (fun r => r.visitedLocations.length) = some n2 ∧
    n1 ≤ n2

end SantaTracker

/-- C6: for the compiled-in table and any two timestamps `t1 ≤ t2` inside
one mission cycle (the day before December 25 of day number `dX` up to
the post-mission wrap instant), the length of `visitedLocations` at `t1`
is at most the length at `t2`; at the wrap instant the length is the
full closed-loop length `stationCount + 2`. -/
theorem visitedLength_monotone (dX y t1 t2 tz : Int)
    (hd : SantaTracker.civilFromDays dX = (y, 12, 25))
    (h12 : t1 ≤ t2)
    (hlo : dX * 86400000 - 86400000 ≤ t1)
    (hhi : t2 ≤ dX * 86400000 + 86400000 + 39600000) :
    SantaTracker.VisitedLengthMono t1 t2 tz ∧
    (SantaTracker.getSantaLocation (dX * 86400000 + 86400000 + 39600000) tz).map
        (fun r => r.visitedLocations.length) =
      some (SantaTracker.TRACKING_STATIONS.length + 2) := by
  constructor
  · obtain ⟨n1, hn1, hc1⟩ := SantaTracker.visited_length_phases dX y t1 tz hd hlo (by omega)
    obtain ⟨n2, hn2, hc2⟩ := SantaTracker.visited_length_phases dX y t2 tz hd (by omega) hhi
    refine ⟨n1, n2, hn1, hn2, ?_⟩
    rcases hc1 with ⟨hp1, he1⟩ | ⟨k1, st1, m1, hf1, hg1, he1, hb1⟩ | ⟨hw1, he1⟩ <;>
      rcases hc2 with ⟨hp2, he2⟩ | ⟨k2, st2, m2, hf2, hg2, he2, hb2⟩ | ⟨hw2, he2⟩
    · omega
    · omega
    · omega
    · omega
    · have hk := SantaTracker.selected_index_mono dX y t1 t2 hd hlo h12 hhi
        k1 k2 st1 st2 m1 m2 hf1 hf2
      omega
    · omega
    · omega
    · exfalso
      have hnone := SantaTracker.no_candidate_post dX y t2 hd (by omega) (by omega) hhi
      rw [hf2] at hnone
      exact Option.noConfusion hnone
    · omega
  · have hw := SantaTracker.no_candidate_post dX y (dX * 86400000 + 86400000 + 39600000) hd
      (by omega) (by omega) le_rfl
    have hv := SantaTracker.visited_post dX y (dX * 86400000 + 86400000 + 39600000) tz hd
      (by omega) (by omega) le_rfl hw
    obtain ⟨r, hr, hrv⟩ := Option.map_eq_some'.1 hv
    rw [hr, Option.map_some', hrv]
    decide

/-- Witness for C6 in the 2025 cycle (`dX = 20447`, December 25 2025):
from 2025-12-25 00:00 UTC to 2025-12-26 00:00 UTC, with the wrap instant
at 2025-12-26 11:00 UTC. -/
theorem visitedLength_monotone_witness :
    (SantaTracker.civilFromDays 20447 = (2025, 12, 25) ∧
      (1766620800000 : Int) ≤ 1766707200000 ∧
      (20447 : Int) * 86400000 - 86400000 ≤ 1766620800000 ∧
      (1766707200000 : Int) ≤ 20447 * 86400000 + 86400000 + 39600000) ∧
    (SantaTracker.VisitedLengthMono 1766620800000 1766707200000 0 ∧
      (SantaTracker.getSantaLocation ((20447 : Int) * 86400000 + 86400000 + 39600000) 0).map
          (fun r => r.visitedLocations.length) =
        some (SantaTracker.TRACKING_STATIONS.length + 2)) :=
  ⟨⟨by decide, by norm_num, by norm_num, by norm_num⟩,
   visitedLength_monotone 20447 2025 1766620800000 1766707200000 0 (by decide)
     (by norm_num) (by norm_num) (by norm_num)⟩

namespace SantaTracker

/-- Every station strictly before the selected index (more eastern) has
already advanced past the target day: its local date is December 26
or 27. -/
theorem earlier_stations_past (t : Int) (k : Nat) (st : TrackingLocation) (m : Int)
    (hres : findCurrentStation t sortedStationsList 0 none = some (k, st, m)) :
    ∀ j (hj : j < sortedStationsList.length), j < k →
      getUTCMonth (localTimeMs t (sortedStationsList.get ⟨j, hj⟩)) = 11 ∧
      25 < getUTCDate (localTimeMs t (sortedStationsList.get ⟨j, hj⟩)) := by
  have hspec := findCurrentStation_spec t sortedStationsList
  rw [hres] at hspec
  obtain ⟨hki, hk, hget, hcand, hm, hmin, hfirst⟩ := hspec
  intro j hj hjk
  have hnc := selected_is_least t k st m hres j hj hjk
  have hmemj : sortedStationsList.get ⟨j, hj⟩ ∈ sortedStationsList :=
    List.mem_iff_get.2 ⟨⟨j, hj⟩, rfl⟩
  have hmemk : sortedStationsList.get ⟨k, hk⟩ ∈ sortedStationsList :=
    List.mem_iff_get.2 ⟨⟨k, hk⟩, rfl⟩
  have hck : isCandidate t (sortedStationsList.get ⟨k, hk⟩) := by rw [hget]; exact hcand
  have hciv := candidate_civil t (sortedStationsList.get ⟨k, hk⟩) hmemk hck
  obtain ⟨hjb1, hjb2⟩ := stOffMs_bounds _ hmemj
  obtain ⟨hkb1, hkb2⟩ := stOffMs_bounds _ hmemk
  have hpw : List.Pairwise (fun a b : TrackingLocation => stOffMs b ≤ stOffMs a)
      sortedStationsList := by decide
  have hle : stOffMs (sortedStationsList.get ⟨k, hk⟩) ≤
      stOffMs (sortedStationsList.get ⟨j, hj⟩) :=
    List.pairwise_iff_get.1 hpw ⟨j, hj⟩ ⟨k, hk⟩ hjk
  set dk := daysFromMs (t + stOffMs (sortedStationsList.get ⟨k, hk⟩)) with hdk
  set dj := daysFromMs (t + stOffMs (sortedStationsList.get ⟨j, hj⟩)) with hdj
  have hdr : dk ≤ dj ∧ dj ≤ dk + 2 := by
    rw [hdk, hdj]
    unfold daysFromMs
    omega
  obtain ⟨h26, h27⟩ := (civil_window dk (civilFromDays dk).1 hciv).2.2
  rw [localTimeMs_table _ hmemj]
  unfold getUTCMonth getUTCDate
  rw [← hdj]
  rcases (by omega : dj = dk ∨ dj = dk + 1 ∨ dj = dk + 2) with h | h | h
  · exfalso
    apply hnc
    unfold isCandidate
    rw [localTimeMs_table _ hmemj]
    unfold getUTCMonth getUTCDate
    rw [← hdj, h, hciv]
    exact ⟨by norm_num, rfl⟩
  · rw [h, h26]
    exact ⟨by norm_num, by norm_num⟩
  · rw [h, h27]
    exact ⟨by norm_num, by norm_num⟩

/-- The structure of `visitedLocations` whenever some station is on the
target day: home base, then the coordinates of stations `0..k` of the
east-to-west list, where `k` is the selected index — the stations before
`k` are past the target day, and the selected station (still on it) is
included. -/
def VisitedPrefix (t tz : Int) : Prop :=
  ∃ k st m,
    findCurrentStation t sortedStationsList 0 none = some (k, st, m) ∧
    (getSantaLocation t tz).map ResolvedState.visitedLocations =
      some (NORTH_POLE_COORDS ::
        (sortedStationsList.take (k + 1)).map (fun s => s.coordinates)) ∧
    isCandidate t st ∧
    (∃ hk : k < sortedStationsList.length, sortedStationsList.get ⟨k, hk⟩ = st) ∧
    ∀ j (hj : j < sortedStationsList.length), j < k →
      getUTCMonth (localTimeMs t (sortedStationsList.get ⟨j, hj⟩)) = 11 ∧
      25 < getUTCDate (localTimeMs t (sortedStationsList.get ⟨j, hj⟩))

end SantaTracker

/-- C7 (counterexample): at 2025-12-25 00:00:00 UTC the visited list is
the home base followed by KIRITIMATI's coordinates, yet KIRITIMATI's
local date is still December 25 (it is the current station, not past the
target day): `visitedLocations` is not restricted to stations already
past the target day. -/
theorem visited_structure_counterexample :
    (SantaTracker.getSantaLocation 1766620800000 0).map
        SantaTracker.ResolvedState.visitedLocations =
      some [SantaTracker.NORTH_POLE_COORDS, SantaTracker.kiritimatiStation.coordinates] ∧
    SantaTracker.isCandidate 1766620800000 SantaTracker.kiritimatiStation ∧
    SantaTracker.kiritimatiStation ∈ SantaTracker.sortedStationsList := by
  refine ⟨?_, by decide, by decide⟩
  simp only [SantaTracker.getSantaLocation, SantaTracker.getSantaLocationWith,
    SantaTracker.stationsByTimezone_TRACKING, SantaTracker.sortedStationsList]
  simp only [Option.map_some']
  decide

/-- C7 (amended): for every timestamp at which some station is on the
target day, `visitedLocations` is the home base followed by the
coordinates of the stations up to AND INCLUDING the selected current
station, in east-to-west order: the strictly earlier stations are past
the target day (local December 26 or 27), but the selected station —
still on December 25 — is included as well. -/
theorem visited_structure (t tz : Int)
    (hex : ∃ st ∈ SantaTracker.sortedStationsList, SantaTracker.isCandidate t st) :
    SantaTracker.VisitedPrefix t tz := by
  rcases hres : SantaTracker.findCurrentStation t SantaTracker.sortedStationsList 0 none with
    _ | ⟨k, st, m⟩
  · exfalso
    have hspec := SantaTracker.findCurrentStation_spec t SantaTracker.sortedStationsList
    rw [hres] at hspec
    obtain ⟨st0, hst0, hc0⟩ := hex
    obtain ⟨n, hget⟩ := List.mem_iff_get.1 hst0
    exact hspec n.1 n.2 n.2 (by rw [hget]; exact hc0)
  · have hspec := SantaTracker.findCurrentStation_spec t SantaTracker.sortedStationsList
    rw [hres] at hspec
    obtain ⟨hki, hk, hget, hcand, hm, hmin, hfirst⟩ := hspec
    exact ⟨k, st, m, hres, SantaTracker.visited_active t tz k st m hres, hcand,
      ⟨hk, hget⟩, SantaTracker.earlier_stations_past t k st m hres⟩

/-- Witness for the amended C7 at 2025-12-26 00:00:00 UTC: the selected
station is CAPE VERDE (index 19), all more eastern stations are on local
December 26. -/
theorem visited_structure_witness :
    (∃ st ∈ SantaTracker.sortedStationsList, SantaTracker.isCandidate 1766707200000 st) ∧
    SantaTracker.VisitedPrefix 1766707200000 0 :=
  ⟨by decide, visited_structure 1766707200000 0 (by decide)⟩
